import Mathlib

/-!
Verification of the multi-monitor snake game server engine
(`src/lib/serverEngine.ts`, the in-memory `globalThis` engine, which is the
variant the claims cite).

Embedding conventions:
* JavaScript numbers are modelled as exact rationals (`ℚ`).  Every quantity
  the engine manipulates (pixel coordinates snapped to multiples of 15,
  millisecond timestamps, scores) is small enough that IEEE double
  arithmetic is exact on it, so `ℚ` is faithful.
* `Math.random()` is modelled by an explicit stream of rationals
  (`Rng := List ℚ`); a draw takes the head of the stream (`0` once the
  stream is exhausted).  `Math.random().toString(36).slice(2, 9)` (`makeId`)
  is modelled by a draw rendered to a string; the engine never compares
  food ids, so only the consumption of one draw matters.
* `Date.now()` is modelled by passing the current time explicitly to each
  public operation.
* `Math.hypot(dx, dy) < r` is modelled as `dx^2 + dy^2 < r^2`, which is
  equivalent for `r ≥ 0`.
* `Math.ceil(Math.sqrt(count))` (an integer for every argument that
  occurs) is modelled by the exact integer ceiling square root.
* The mutable `GlobalState` is modelled by explicit state passing; each
  public API function returns the new global state together with the
  snapshot (`{ ...state.game }`) it hands to the caller.
* `game.snake[0]` on an empty array would be `undefined` in JavaScript; the
  model totalises it with `List.headI` (default `⟨0, 0⟩`).  All states the
  engine actually produces have a snake of length ≥ 2.
-/

namespace SnakeGame

/-- A world-space position (`{ x, y }` in the source). -/
structure Pos where
  x : ℚ
  y : ℚ
deriving DecidableEq, Repr

instance : Inhabited Pos := ⟨⟨0, 0⟩⟩

/-- The `Segment` in the source is `{ x : number; y : number }`. -/
abbrev Segment := Pos

/-- A grid cell index pair, as returned by `toGridCell`. -/
structure GridCell where
  gx : ℤ
  gy : ℤ
deriving DecidableEq, Repr

/-- The `Food` record from the source. -/
structure Food where
  id : String
  x : ℚ
  y : ℚ
  monitorId : String
deriving DecidableEq, Repr

/-- The four movement directions. -/
inductive Direction where
  | up | down | left | right
deriving DecidableEq, Repr

/-- Game lifecycle phase. -/
inductive Phase where
  | idle | running | ended
deriving DecidableEq, Repr

/-- The `ServerGameState` record from the source. -/
structure ServerGameState where
  phase : Phase
  score : ℚ
  dir : Direction
  nextDir : Direction
  snake : List Segment
  foods : List Food
  activeMonitorId : String
  tick : ℕ
  lastTickTime : ℚ
  timeLeftMs : ℚ
  totalTimeMs : ℚ
deriving DecidableEq, Repr

/-- The `GameConfig` record from the source. -/
structure GameConfig where
  monitorCount : ℕ
  timerSeconds : ℚ
  foodPerMonitor : ℕ
  gridCellSize : ℚ
  tickIntervalMs : ℚ
  snakeSpeed : ℚ
deriving DecidableEq, Repr

/-- The `MonitorConfig` record from the source (the cosmetic `rotationDeg` is
omitted, the engine never reads it). -/
structure MonitorConfig where
  id : String
  row : ℕ
  col : ℕ
deriving DecidableEq, Repr

/-- The `Portal` record from the source. -/
structure Portal where
  «from» : String
  «to» : String
  fromPos : Pos
  toPos : Pos
deriving DecidableEq, Repr

/-- The aggregate held in `globalThis.__snakeGame`. -/
structure GlobalState where
  config : GameConfig
  monitors : List MonitorConfig
  portals : List Portal
  game : ServerGameState
deriving DecidableEq, Repr

/-- Explicit stream of `Math.random()` results. -/
abbrev Rng := List ℚ

/-- One `Math.random()` draw: head of the stream, `0` when exhausted. -/
def rand (rng : Rng) : ℚ × Rng :=
  match rng with
  | [] => (0, [])
  | q :: rest => (q, rest)

/-- The `makeId()`: consumes one draw and renders it as a string. -/
def makeId (rng : Rng) : String × Rng :=
  let p := rand rng
  (toString p.1.num ++ "_" ++ toString p.1.den, p.2)

/-! ### Constants (`serverEngine.ts` lines 60-64) -/

def MONITOR_W : ℚ := 1920
def MONITOR_H : ℚ := 1080
def DEFAULT_CELL : ℚ := 30
def PORTAL_RADIUS : ℚ := 80

/-! ### Config loading (`createConfig`) -/

/-- The optional fields of `game.config.json` (`FileConfig`). -/
structure FileConfig where
  monitorCount : Option ℕ := none
  timerSeconds : Option ℚ := none
  foodPerMonitor : Option ℕ := none
  snakeSpeed : Option ℚ := none
deriving DecidableEq, Repr

/-- The `createConfig`: clamps the speed into `[1, 10]` and derives the tick
interval `250 - speed * 20`. -/
def createConfig (fc : FileConfig) : GameConfig :=
  let speed := max 1 (min 10 (fc.snakeSpeed.getD 8))
  { monitorCount := fc.monitorCount.getD 6
    timerSeconds := fc.timerSeconds.getD 120
    foodPerMonitor := fc.foodPerMonitor.getD 5
    gridCellSize := DEFAULT_CELL
    tickIntervalMs := 250 - speed * 20
    snakeSpeed := speed }

/-! ### Geometry (`snapToGrid`, `toGridCell`, `fromGridCell`) -/

/-- The `toGridCell` (grid module, `config.ts` / the test suite): floor
division of both pixel coordinates. -/
def toGridCell (p : Pos) (cellSize : ℚ) : GridCell :=
  ⟨⌊p.x / cellSize⌋, ⌊p.y / cellSize⌋⟩

/-- The `fromGridCell`: the center pixel of a grid cell. -/
def fromGridCell (gx gy : ℤ) (cellSize : ℚ) : Pos :=
  ⟨gx * cellSize + cellSize / 2, gy * cellSize + cellSize / 2⟩

/-- The `snapToGrid` from `serverEngine.ts`: floor to the cell, then return the
cell center. -/
def snapToGrid (p : Pos) (cell : ℚ) : Pos :=
  ⟨⌊p.x / cell⌋ * cell + cell / 2, ⌊p.y / cell⌋ * cell + cell / 2⟩

/-- Integer ceiling square root: the exact value of
`Math.ceil(Math.sqrt(count))` for natural `count`. -/
def ceilSqrt (n : ℕ) : ℕ :=
  if n = 0 then 0 else Nat.sqrt (n - 1) + 1

/-! ### Topology generation -/

/-- The `generateMonitors`: row-major layout with `cols = ceil(sqrt(count))`. -/
def generateMonitors (count : ℕ) : List MonitorConfig :=
  let cols := ceilSqrt count
  (List.range count).map fun i => ⟨toString i, i / cols, i % cols⟩

/-- Dummy monitor used to totalise the in-bounds array access
`monitors[(i + 1) % monitors.length]` in `generatePortals`. -/
def dummyMonitor : MonitorConfig := ⟨"", 0, 0⟩

/-- The `generatePortals` (`serverEngine.ts` lines 143-155): one portal per
monitor, monitor `i → (i + 1) % N`, entry `(W - 80, H / 2)`, exit
`(100, H / 2)`.  Note the source has no guard for `N ≤ 1`. -/
def generatePortals (monitors : List MonitorConfig) : List Portal :=
  (List.range monitors.length).map fun i =>
    { «from» := (monitors.getD i dummyMonitor).id
      «to» := (monitors.getD ((i + 1) % monitors.length) dummyMonitor).id
      fromPos := ⟨MONITOR_W - 80, MONITOR_H / 2⟩
      toPos := ⟨100, MONITOR_H / 2⟩ }

/-- The `monitorOrigin`: world origin of a monitor by id, falling back to the
first monitor of the list and then to `(0, 0)`. -/
def monitorOrigin (monitors : List MonitorConfig) (id : String) : Pos :=
  match monitors.find? (fun mm => mm.id == id) with
  | some m => ⟨(m.col : ℚ) * MONITOR_W, (m.row : ℚ) * MONITOR_H⟩
  | none =>
    match monitors with
    | m :: _ => ⟨(m.col : ℚ) * MONITOR_W, (m.row : ℚ) * MONITOR_H⟩
    | [] => ⟨0, 0⟩

/-- The `findMonitor`: the first monitor whose half-open rectangle contains the
point. -/
def findMonitor (monitors : List MonitorConfig) (pos : Pos) : Option MonitorConfig :=
  monitors.find? fun m =>
    if (m.col : ℚ) * MONITOR_W ≤ pos.x ∧ pos.x < (m.col : ℚ) * MONITOR_W + MONITOR_W ∧
        (m.row : ℚ) * MONITOR_H ≤ pos.y ∧ pos.y < (m.row : ℚ) * MONITOR_H + MONITOR_H
    then true else false

/-! ### Initial state -/

/-- The `createInitialGameState`: two-segment snake at the snapped center of
monitor "0". -/
def createInitialGameState (config : GameConfig) (now : ℚ) : ServerGameState :=
  let cell := config.gridCellSize
  { phase := .idle
    score := 0
    dir := .right
    nextDir := .right
    snake := [snapToGrid ⟨MONITOR_W / 2, MONITOR_H / 2⟩ cell,
              snapToGrid ⟨MONITOR_W / 2 - cell, MONITOR_H / 2⟩ cell]
    foods := []
    activeMonitorId := "0"
    tick := 0
    lastTickTime := now
    timeLeftMs := config.timerSeconds * 1000
    totalTimeMs := config.timerSeconds * 1000 }

/-- The `createInitialState`: config from file, monitors, portals, game. -/
def createInitialState (fc : FileConfig) (now : ℚ) : GlobalState :=
  let config := createConfig fc
  let monitors := generateMonitors config.monitorCount
  { config := config
    monitors := monitors
    portals := generatePortals monitors
    game := createInitialGameState config now }

/-! ### Food generation (`spawnFoods`, `respawnFood`) -/

/-- The body of the spawning loop: one food on monitor `m`, drawn from a
100px-padded interior and snapped to the grid.  Consumes three draws
(`x`, `y`, `makeId`). -/
def spawnOneFood (cell : ℚ) (m : MonitorConfig) (rng : Rng) : Food × Rng :=
  let ox : ℚ := (m.col : ℚ) * MONITOR_W
  let oy : ℚ := (m.row : ℚ) * MONITOR_H
  let p1 := rand rng
  let p2 := rand p1.2
  let x := ox + 100 + p1.1 * (MONITOR_W - 200)
  let y := oy + 100 + p2.1 * (MONITOR_H - 200)
  let pos := snapToGrid ⟨x, y⟩ cell
  let pid := makeId p2.2
  (⟨pid.1, pos.x, pos.y, m.id⟩, pid.2)

/-- The inner `for i < foodPerMonitor` loop of `spawnFoods`. -/
def spawnLoop (cell : ℚ) (m : MonitorConfig) : ℕ → Rng → List Food × Rng
  | 0, rng => ([], rng)
  | Nat.succ k, rng =>
    let p := spawnOneFood cell m rng
    let rest := spawnLoop cell m k p.2
    (p.1 :: rest.1, rest.2)

/-- The `spawnFoods` (`serverEngine.ts` lines 229-249): clears the food list,
then unconditionally pushes `foodPerMonitor` snapped random positions per
monitor.  There is no occupancy, no portal-distance and no retry logic. -/
def spawnFoods (config : GameConfig) : List MonitorConfig → Rng → List Food × Rng
  | [], rng => ([], rng)
  | m :: ms, rng =>
    let p := spawnLoop config.gridCellSize m config.foodPerMonitor rng
    let rest := spawnFoods config ms p.2
    (p.1 ++ rest.1, rest.2)

/-- The `respawnFood` (`serverEngine.ts` lines 251-267): pushes exactly one
snapped random food on the given monitor (nothing when the monitor id is
unknown); again with no validity checking. -/
def respawnFood (config : GameConfig) (monitors : List MonitorConfig)
    (monitorId : String) (rng : Rng) : List Food × Rng :=
  match monitors.find? (fun mm => mm.id == monitorId) with
  | none => ([], rng)
  | some m =>
    let p := spawnOneFood config.gridCellSize m rng
    ([{ p.1 with monitorId := monitorId }], p.2)

/-! ### Collision predicates used by `step` -/

/-- The food-collision test of `step`:
`(newHead.x - f.x)^2 + (newHead.y - f.y)^2 < cell^2`. -/
def foodHit (newHead : Pos) (f : Food) (cell : ℚ) : Bool :=
  if (newHead.x - f.x) ^ 2 + (newHead.y - f.y) ^ 2 < cell * cell then true else false

/-- The self-collision test of `step`:
`|newHead.x - seg.x| < cell/2 && |newHead.y - seg.y| < cell/2`. -/
def selfHit (newHead seg : Pos) (cell : ℚ) : Bool :=
  if |newHead.x - seg.x| < cell / 2 ∧ |newHead.y - seg.y| < cell / 2 then true else false

/-- The portal-entrance test of `step`:
`Math.hypot(localX - fromPos.x, localY - fromPos.y) < PORTAL_RADIUS`,
expressed with squares. -/
def inPortalRadius (localPos fromPos : Pos) : Bool :=
  if (localPos.x - fromPos.x) ^ 2 + (localPos.y - fromPos.y) ^ 2 <
      PORTAL_RADIUS ^ 2 then true else false

/-- The predicate of the portal loop: portal sourced at the current monitor
whose entry point is within the detection radius of the candidate head. -/
def portalQuery (mon : MonitorConfig) (localPos : Pos) (p : Portal) : Bool :=
  (p.«from» == mon.id) && inPortalRadius localPos p.fromPos

/-- The wall-collision test of `step`:
`localX < cell || localX > W - cell || localY < cell || localY > H - cell`. -/
def wallHit (cell : ℚ) (localPos : Pos) : Bool :=
  if localPos.x < cell ∨ localPos.x > MONITOR_W - cell ∨
      localPos.y < cell ∨ localPos.y > MONITOR_H - cell then true else false

/-- The `dx` of one move: `-cell` for left, `cell` for right, else `0`. -/
def dirDx (d : Direction) (cell : ℚ) : ℚ :=
  match d with
  | .left => -cell
  | .right => cell
  | _ => 0

/-- The `dy` of one move: `-cell` for up, `cell` for down, else `0`. -/
def dirDy (d : Direction) (cell : ℚ) : ℚ :=
  match d with
  | .up => -cell
  | .down => cell
  | _ => 0

/-- The candidate head of a tick: the current head advanced one cell in the
direction about to be committed (`nextDir`). -/
def candidateHead (g : GlobalState) : Pos :=
  let cell := g.config.gridCellSize
  let head := g.game.snake.headI
  ⟨head.x + dirDx g.game.nextDir cell, head.y + dirDy g.game.nextDir cell⟩

/-- Monitor-local coordinates of a world position. -/
def localOf (mon : MonitorConfig) (p : Pos) : Pos :=
  ⟨p.x - (mon.col : ℚ) * MONITOR_W, p.y - (mon.row : ℚ) * MONITOR_H⟩

/-! ### The simulation step -/

/-- The food-eating loop of `step`, which scans `foods` from the last index
downwards and removes the first hit.  This function receives the food list
already reversed; it returns the eaten food and the remaining (still
reversed) list. -/
def eatScan (newHead : Pos) (cell : ℚ) : List Food → Option (Food × List Food)
  | [] => none
  | f :: rest =>
    if foodHit newHead f cell then some (f, rest)
    else
      match eatScan newHead cell rest with
      | some (f', rest') => some (f', f :: rest')
      | none => none

/-- Final part of `step`: the self-collision scan over the post-move snake
(skipping the first 3 segments), ending the game or advancing the tick
counter. -/
def stepFinish (g : GlobalState) (newHead : Pos) (rng : Rng) : GlobalState × Rng :=
  if (g.game.snake.drop 3).any (fun seg => selfHit newHead seg g.config.gridCellSize) then
    ({ g with game := { g.game with phase := .ended } }, rng)
  else
    ({ g with game := { g.game with tick := g.game.tick + 1 } }, rng)

/-- Middle part of `step`: prepend the new head, run the food loop (eat →
score, respawn, keep tail; otherwise pop the tail), then the self-collision
scan. -/
def stepMove (g : GlobalState) (newHead : Pos) (rng : Rng) : GlobalState × Rng :=
  let cell := g.config.gridCellSize
  let snake1 := newHead :: g.game.snake
  match eatScan newHead cell g.game.foods.reverse with
  | some fr =>
    let pr := respawnFood g.config g.monitors fr.1.monitorId rng
    stepFinish
      { g with game := { g.game with
          snake := snake1
          foods := fr.2.reverse ++ pr.1
          score := g.game.score + 10 } }
      newHead pr.2
  | none =>
    stepFinish { g with game := { g.game with snake := snake1.dropLast } } newHead rng

/-- The `step` (`serverEngine.ts` lines 273-357): one simulation tick.  Commits
the buffered direction, computes the candidate head, resolves the current
monitor (snapping back to the world center when the head is outside every
monitor), checks portals before walls, then moves, eats and checks
self-collision. -/
def step (g : GlobalState) (rng : Rng) : GlobalState × Rng :=
  if g.game.phase = .running then
    let cell := g.config.gridCellSize
    let g0 : GlobalState := { g with game := { g.game with dir := g.game.nextDir } }
    let head := g.game.snake.headI
    let newHead0 := candidateHead g
    match findMonitor g.monitors head with
    | none => stepMove g0 (snapToGrid ⟨MONITOR_W / 2, MONITOR_H / 2⟩ cell) rng
    | some mon =>
      let lp := localOf mon newHead0
      match g.portals.find? (portalQuery mon lp) with
      | some p =>
        let o := monitorOrigin g.monitors p.«to»
        stepMove { g0 with game := { g0.game with activeMonitorId := p.«to» } }
          (snapToGrid ⟨o.x + p.toPos.x, o.y + p.toPos.y⟩ cell) rng
      | none =>
        if wallHit cell lp then
          ({ g0 with game := { g0.game with phase := .ended } }, rng)
        else
          stepMove g0 newHead0 rng
  else (g, rng)

/-! ### Tick scheduling -/

/-- The `for i < maxTicks { step(); if not running break }` loop of
`processTicks`. -/
def runSteps : ℕ → GlobalState → Rng → GlobalState × Rng
  | 0, g, rng => (g, rng)
  | Nat.succ n, g, rng =>
    let p := step g rng
    if p.1.game.phase ≠ .running then p
    else runSteps n p.1 p.2

/-- The `processTicks` (`serverEngine.ts` lines 359-383): subtract the full
elapsed time from the round timer, end the game when it reaches zero,
otherwise run `min(⌊elapsed / tickIntervalMs⌋, 5)` steps and (only then)
move `lastTickTime` to `now`. -/
def processTicks (g : GlobalState) (now : ℚ) (rng : Rng) : GlobalState × Rng :=
  if g.game.phase ≠ .running then (g, rng)
  else
    let elapsed := now - g.game.lastTickTime
    let g1 : GlobalState :=
      { g with game := { g.game with timeLeftMs := g.game.timeLeftMs - elapsed } }
    if g1.game.timeLeftMs ≤ 0 then
      ({ g1 with game := { g1.game with phase := .ended } }, rng)
    else
      let ticks : ℤ := ⌊elapsed / g.config.tickIntervalMs⌋
      if 0 < ticks then
        let p := runSteps (min ticks 5).toNat g1 rng
        ({ p.1 with game := { p.1.game with lastTickTime := now } }, p.2)
      else (g1, rng)

/-! ### Public API -/

/-- The `startGame`: no-op when already running; otherwise reset the game state,
spawn the initial foods and return the snapshot. -/
def startGame (now : ℚ) (rng : Rng) (g : GlobalState) :
    (GlobalState × Rng) × ServerGameState :=
  if g.game.phase = .running then ((g, rng), g.game)
  else
    let cell := g.config.gridCellSize
    let game1 : ServerGameState :=
      { g.game with
          phase := .running
          score := 0
          dir := .right
          nextDir := .right
          snake := [snapToGrid ⟨MONITOR_W / 2, MONITOR_H / 2⟩ cell,
                    snapToGrid ⟨MONITOR_W / 2 - cell, MONITOR_H / 2⟩ cell]
          activeMonitorId := "0"
          tick := 0
          lastTickTime := now
          timeLeftMs := g.config.timerSeconds * 1000
          totalTimeMs := g.config.timerSeconds * 1000 }
    let p := spawnFoods g.config g.monitors rng
    let g' : GlobalState := { g with game := { game1 with foods := p.1 } }
    ((g', p.2), g'.game)

/-- The `stopGameAction`: force the phase to `ended`. -/
def stopGameAction (g : GlobalState) : GlobalState × ServerGameState :=
  let g' : GlobalState := { g with game := { g.game with phase := .ended } }
  (g', g'.game)

/-- The `resetGame`: back to `idle` with a fresh two-segment snake and no food. -/
def resetGame (now : ℚ) (g : GlobalState) : GlobalState × ServerGameState :=
  let cell := g.config.gridCellSize
  let g' : GlobalState :=
    { g with game :=
      { g.game with
          phase := .idle
          score := 0
          dir := .right
          nextDir := .right
          snake := [snapToGrid ⟨MONITOR_W / 2, MONITOR_H / 2⟩ cell,
                    snapToGrid ⟨MONITOR_W / 2 - cell, MONITOR_H / 2⟩ cell]
          foods := []
          activeMonitorId := "0"
          tick := 0
          lastTickTime := now
          timeLeftMs := g.config.timerSeconds * 1000
          totalTimeMs := g.config.timerSeconds * 1000 } }
  (g', g'.game)

/-- The 180° reversal of a direction (`opposite` table in `setDirection`). -/
def opposite (d : Direction) : Direction :=
  match d with
  | .up => .down
  | .down => .up
  | .left => .right
  | .right => .left

/-- The `setDirection` (`serverEngine.ts` lines 452-468): ignored entirely
unless the phase is `running`; buffers `nextDir := dir` unless `dir` is the
exact reverse of the committed direction. -/
def setDirection (d : Direction) (g : GlobalState) : GlobalState × ServerGameState :=
  if g.game.phase ≠ .running then (g, g.game)
  else if opposite d ≠ g.game.dir then
    let g' : GlobalState := { g with game := { g.game with nextDir := d } }
    (g', g'.game)
  else (g, g.game)

/-- The `getGameState`: run the tick scheduler, then return the snapshot. -/
def getGameState (now : ℚ) (rng : Rng) (g : GlobalState) :
    (GlobalState × Rng) × ServerGameState :=
  let p := processTicks g now rng
  (p, p.1.game)

/-- The `setupGame`: overwrite the count/timer/food config fields, regenerate
monitors and portals, and reinitialise the game state. -/
def setupGame (monitorCount : ℕ) (timerSeconds : ℚ) (foodPerMonitor : ℕ)
    (now : ℚ) (g : GlobalState) : GlobalState :=
  let config : GameConfig :=
    { g.config with
        monitorCount := monitorCount
        timerSeconds := timerSeconds
        foodPerMonitor := foodPerMonitor }
  let monitors := generateMonitors monitorCount
  { config := config
    monitors := monitors
    portals := generatePortals monitors
    game := createInitialGameState config now }

end SnakeGame

namespace SnakeGame

/-! ### Test fixtures -/

/-- A single monitor at the origin. -/
def mon0 : MonitorConfig := ⟨"0", 0, 0⟩

/-- Default dummy portal (used only to totalise `getD` in statements). -/
def dummyPortal : Portal := ⟨"", "", ⟨0, 0⟩, ⟨0, 0⟩⟩

/-- The default engine configuration (speed 8, hence 90 ms ticks). -/
def baseConfig : GameConfig :=
  { monitorCount := 6, timerSeconds := 120, foodPerMonitor := 5
    gridCellSize := 30, tickIntervalMs := 90, snakeSpeed := 8 }

/-- A freshly started two-segment running game, as `startGame` produces on
monitor "0" (no foods). -/
def baseGame : ServerGameState :=
  { phase := .running, score := 0, dir := .right, nextDir := .right
    snake := [⟨975, 555⟩, ⟨945, 555⟩], foods := [], activeMonitorId := "0"
    tick := 0, lastTickTime := 0, timeLeftMs := 120000, totalTimeMs := 120000 }

/-- A small running global state on one monitor without portals or foods. -/
def baseState : GlobalState :=
  { config := baseConfig, monitors := [mon0], portals := [], game := baseGame }

/-- The `baseState` with the phase set to `idle`. -/
def idleState : GlobalState :=
  { baseState with game := { baseGame with phase := .idle } }

/-- Instrumented variant of the `processTicks` loop that additionally
counts how many times `step` is invoked before the loop exits. -/
def runStepsCount : ℕ → GlobalState → Rng → (GlobalState × Rng) × ℕ
  | 0, g, rng => ((g, rng), 0)
  | Nat.succ n, g, rng =>
    let p := step g rng
    if p.1.game.phase ≠ .running then (p, 1)
    else
      let q := runStepsCount n p.1 p.2
      (q.1, q.2 + 1)

/-- The timer update performed at the top of `processTicks`: the full
elapsed wall-clock time is subtracted from `timeLeftMs`. -/
def timerCharged (g : GlobalState) (now : ℚ) : GlobalState :=
  { g with game := { g.game with
      timeLeftMs := g.game.timeLeftMs - (now - g.game.lastTickTime) } }

/-- Modelled from the spec: the boundary test described in §4.4
(`checkWallCollision`), which declares a boundary event when the local
position is within `cellSize/2` of any of the four monitor edges.  This is
the predicate claim C5 attributes to the engine; it is compared against the
engine's own `wallHit`. -/
def specWallClose (cell : ℚ) (localPos : Pos) : Bool :=
  if localPos.x < cell / 2 ∨ localPos.x > MONITOR_W - cell / 2 ∨
      localPos.y < cell / 2 ∨ localPos.y > MONITOR_H - cell / 2 then true else false

/-- A position is grid-aligned to a cell center:
`pixel = cellIndex * cellSize + cellSize / 2` on both axes. -/
def alignedQ (cell : ℚ) (p : Pos) : Prop :=
  ∃ k m : ℤ, p.x = k * cell + cell / 2 ∧ p.y = m * cell + cell / 2

/-- Two monitors side by side. -/
def mons2 : List MonitorConfig := [⟨"0", 0, 0⟩, ⟨"1", 0, 1⟩]

/-- The two-portal ring between the two monitors of `mons2`. -/
def ports2 : List Portal :=
  [⟨"0", "1", ⟨1840, 540⟩, ⟨100, 540⟩⟩, ⟨"1", "0", ⟨1840, 540⟩, ⟨100, 540⟩⟩]

/-- A running state whose snake heads straight for the portal entry of
monitor "0". -/
def portalState : GlobalState :=
  { config := baseConfig, monitors := mons2, portals := ports2
    game := { baseGame with snake := [⟨1785, 555⟩, ⟨1755, 555⟩] } }

/-- A running state one cell away from the left wall, moving left, with no
portals. -/
def cxWallState : GlobalState :=
  { config := baseConfig, monitors := [mon0], portals := []
    game := { baseGame with
      snake := [⟨45, 555⟩, ⟨75, 555⟩], dir := .left, nextDir := .left } }

/-! ### Concrete public-operation traces

Two adversarially chosen but perfectly legal runs of the public API, used
to exhibit reachable states.  `Math.random()` draws are chosen so that the
spawned food lands on specific grid cells. -/

/-- The random stream for the C4 trace: three foods on monitor "0" at
cells (33,18), (34,18) and (35,18) — directly in the snake's path. -/
def c4rng : Rng :=
  [905/1720, 455/880, 0, 935/1720, 455/880, 0, 965/1720, 455/880, 0]

def c4g0 : GlobalState := createInitialState {} 0
def c4g1 : GlobalState := setupGame 1 60 3 0 c4g0
def c4p2 : (GlobalState × Rng) × ServerGameState := startGame 0 c4rng c4g1
def c4p3 : (GlobalState × Rng) × ServerGameState := getGameState 90 c4p2.1.2 c4p2.1.1
def c4p4 : (GlobalState × Rng) × ServerGameState := getGameState 180 c4p3.1.2 c4p3.1.1
def c4p5 : (GlobalState × Rng) × ServerGameState := getGameState 270 c4p4.1.2 c4p4.1.1
def c4q5 : GlobalState × ServerGameState := setDirection Direction.up c4p5.1.1
def c4p6 : (GlobalState × Rng) × ServerGameState := getGameState 360 c4p5.1.2 c4q5.1
def c4q6 : GlobalState × ServerGameState := setDirection Direction.left c4p6.1.1
def c4p7 : (GlobalState × Rng) × ServerGameState := getGameState 450 c4p6.1.2 c4q6.1
def c4q7 : GlobalState × ServerGameState := setDirection Direction.down c4p7.1.1
def c4p8 : (GlobalState × Rng) × ServerGameState := getGameState 540 c4p7.1.2 c4q7.1

/-- The random stream for the C3 trace: the single food of monitor "0"
lands on cell (32,18) — the cell of the freshly spawned snake's head. -/
def c3rng : Rng := [875/1720, 455/880, 0]

def c3g1 : GlobalState := setupGame 1 60 1 0 (createInitialState {} 0)
def c3p : (GlobalState × Rng) × ServerGameState := startGame 0 c3rng c3g1

/-- A running state whose next move (down) lands the head on the cell of
segment index 2, which after the move sits at index 3 of the snake. -/
def selfHitState : GlobalState :=
  { config := baseConfig, monitors := [mon0], portals := []
    game := { baseGame with
      snake := [⟨1035, 525⟩, ⟨1065, 525⟩, ⟨1035, 555⟩, ⟨1065, 555⟩]
      dir := .down, nextDir := .down } }

/-- What actually holds of every food position the engine adds: it is
grid-aligned and lies in the 100 px padded interior of its monitor up to
half a cell of snapping slack.  (No occupancy or portal-distance condition
appears here — the engine checks none.) -/
def spawnedFoodOk (cell : ℚ) (m : MonitorConfig) (f : Food) : Prop :=
  alignedQ cell ⟨f.x, f.y⟩ ∧
  (m.col : ℚ) * MONITOR_W + 100 - cell / 2 < f.x ∧
  f.x < (m.col : ℚ) * MONITOR_W + MONITOR_W - 100 + cell / 2 ∧
  (m.row : ℚ) * MONITOR_H + 100 - cell / 2 < f.y ∧
  f.y < (m.row : ℚ) * MONITOR_H + MONITOR_H - 100 + cell / 2

/-! ### Direction helper lemmas -/

theorem opposite_opposite (d : Direction) : opposite (opposite d) = d := by
  cases d <;> rfl

theorem opposite_eq_iff (d c : Direction) : opposite d = c ↔ d = opposite c := by
  cases d <;> cases c <;> simp [opposite]

/-! ### Claim C7 -/

/-- C7: in a running state, `setDirection` with the exact opposite of the
committed direction leaves the state (in particular `nextDir`) unchanged
and raises no error, while `setDirection` with any direction that is not
the opposite of the committed one sets `nextDir` to it (both in the stored
state and in the returned snapshot). -/
theorem setDirection_no_reversal (g : GlobalState) (d : Direction)
    (hrun : g.game.phase = Phase.running) :
    (d = opposite g.game.dir → setDirection d g = (g, g.game)) ∧
    (d ≠ opposite g.game.dir →
      (setDirection d g).1.game.nextDir = d ∧ (setDirection d g).2.nextDir = d) := by
  constructor
  · intro hd
    have hcond : ¬ (opposite d ≠ g.game.dir) := by
      simp [hd, opposite_opposite]
    simp [setDirection, hrun, hcond]
  · intro hd
    have hcond : opposite d ≠ g.game.dir := by
      intro h
      exact hd ((opposite_eq_iff d g.game.dir).mp h)
    simp [setDirection, hrun, hcond]

/-- Witness for C7 at a concrete running state: `left` is the reverse of
the committed `right` and is ignored. -/
theorem setDirection_no_reversal_witness :
    setDirection Direction.left baseState = (baseState, baseState.game) :=
  (setDirection_no_reversal baseState Direction.left rfl).1 rfl

/-! ### Claim C8 (corrected) -/

/-- C8 counterexample: with the phase `idle`, `setDirection up` does not
change `nextDir` (it remains `right`), contradicting the claim that the
input is accepted into the buffer. -/
theorem setDirection_idle_counterexample :
    (setDirection Direction.up idleState).1.game.nextDir = Direction.right ∧
    Direction.right ≠ Direction.up := by
  constructor
  · rfl
  · decide

/-- C8 amended: calling `setDirection` while the phase is `idle` or `ended`
is ignored entirely: the state (including `nextDir`) is returned unchanged;
direction input is only accepted while running. -/
theorem setDirection_outside_running_noop (g : GlobalState) (d : Direction)
    (h : g.game.phase ≠ Phase.running) :
    setDirection d g = (g, g.game) := by
  simp [setDirection, h]

/-- Witness for the amended C8 at a concrete idle state. -/
theorem setDirection_outside_running_noop_witness :
    setDirection Direction.up idleState = (idleState, idleState.game) :=
  setDirection_outside_running_noop idleState Direction.up (by decide)

end SnakeGame

namespace SnakeGame

/-! ### Claim C9 (corrected) -/

/-- C9 counterexample: for a single monitor, `generatePortals` does not
return the empty list; it returns one self-portal `"0" → "0"`. -/
theorem generatePortals_single_counterexample :
    generatePortals (generateMonitors 1) =
      [{ «from» := "0", «to» := "0", fromPos := ⟨1840, 540⟩, toPos := ⟨100, 540⟩ }] ∧
    generatePortals (generateMonitors 1) ≠ [] := by
  have h : generatePortals (generateMonitors 1) =
      [{ «from» := "0", «to» := "0", fromPos := ⟨1840, 540⟩, toPos := ⟨100, 540⟩ }] := by
    norm_num [generatePortals, generateMonitors, ceilSqrt, Nat.sqrt_zero,
      List.range_succ, MONITOR_W, MONITOR_H]
    rfl
  exact ⟨h, by rw [h]; simp⟩

/-- Length of the generated monitor list. -/
theorem generateMonitors_length (n : ℕ) : (generateMonitors n).length = n := by
  simp [generateMonitors]

/-- Element `i` of the generated monitor list. -/
theorem generateMonitors_getD (n i : ℕ) (h : i < n) :
    (generateMonitors n).getD i dummyMonitor =
      ⟨toString i, i / ceilSqrt n, i % ceilSqrt n⟩ := by
  rw [List.getD_eq_getElem _ _ (by simpa [generateMonitors_length])]
  simp [generateMonitors]

/-- C9 amended: `generatePortals` on `generateMonitors n` returns the empty
list only for `n = 0`; for every `n ≥ 1` it returns exactly `n` portals,
portal `i` leading from monitor `i` to monitor `(i + 1) mod n` (a
self-portal when `n = 1`), with fixed entry `(MONITOR_W - 80, MONITOR_H/2) =
(1840, 540)` and exit `(100, MONITOR_H/2) = (100, 540)`. -/
theorem generatePortals_ring (n : ℕ) :
    (generatePortals (generateMonitors n)).length = n ∧
    (n = 0 → generatePortals (generateMonitors n) = []) ∧
    ∀ i, i < n →
      (generatePortals (generateMonitors n)).getD i dummyPortal =
        { «from» := toString i, «to» := toString ((i + 1) % n),
          fromPos := ⟨1840, 540⟩, toPos := ⟨100, 540⟩ } := by
  refine ⟨?_, ?_, ?_⟩
  · simp [generatePortals, generateMonitors_length]
  · intro hn
    subst hn
    simp [generatePortals, generateMonitors]
  · intro i hi
    have hlen : (generatePortals (generateMonitors n)).length = n := by
      simp [generatePortals, generateMonitors_length]
    rw [List.getD_eq_getElem _ _ (by simpa [hlen])]
    have hmod : (i + 1) % n < n := Nat.mod_lt _ (Nat.pos_of_ne_zero (by omega))
    simp only [generatePortals, generateMonitors_length, List.getElem_map,
      List.getElem_range]
    rw [generateMonitors_getD n i hi, generateMonitors_getD n ((i + 1) % n) hmod]
    norm_num [MONITOR_W, MONITOR_H]

/-- Witness for the amended C9 with two monitors: two portals
`"0" → "1"` and `"1" → "0"`. -/
theorem generatePortals_ring_witness :
    (generatePortals (generateMonitors 2)).getD 0 dummyPortal =
      { «from» := "0", «to» := "1", fromPos := ⟨1840, 540⟩, toPos := ⟨100, 540⟩ } ∧
    (generatePortals (generateMonitors 2)).getD 1 dummyPortal =
      { «from» := "1", «to» := "0", fromPos := ⟨1840, 540⟩, toPos := ⟨100, 540⟩ } := by
  constructor
  · have h := (generatePortals_ring 2).2.2 0 (by decide)
    simpa using h
  · have h := (generatePortals_ring 2).2.2 1 (by decide)
    simpa using h

end SnakeGame

namespace SnakeGame

/-! ### Tick scheduler lemmas -/

theorem runStepsCount_fst (n : ℕ) :
    ∀ (g : GlobalState) (rng : Rng), (runStepsCount n g rng).1 = runSteps n g rng := by
  induction n with
  | zero => intro g rng; rfl
  | succ n ih =>
    intro g rng
    simp only [runStepsCount, runSteps]
    split
    · rfl
    · exact ih _ _

theorem runStepsCount_le (n : ℕ) :
    ∀ (g : GlobalState) (rng : Rng), (runStepsCount n g rng).2 ≤ n := by
  induction n with
  | zero => intro g rng; exact le_refl 0
  | succ n ih =>
    intro g rng
    simp only [runStepsCount]
    split
    · omega
    · have := ih (step g rng).1 (step g rng).2
      omega

theorem runStepsCount_early_stop (n : ℕ) :
    ∀ (g : GlobalState) (rng : Rng), (runStepsCount n g rng).2 < n →
      (runStepsCount n g rng).1.1.game.phase ≠ Phase.running := by
  induction n with
  | zero => intro g rng h; omega
  | succ n ih =>
    intro g rng h
    simp only [runStepsCount] at h ⊢
    split
    · next hstop => exact hstop
    · next hgo =>
      rw [if_neg hgo] at h
      simp only [] at h
      exact ih _ _ (by simp at h; omega)

/-- A `processTicks` call whose elapsed time is strictly between `0` and
one tick interval charges the timer but runs no step and does not advance
`lastTickTime`. -/
theorem processTicks_subinterval (g : GlobalState) (now : ℚ) (rng : Rng)
    (hrun : g.game.phase = Phase.running)
    (hI : 0 < g.config.tickIntervalMs)
    (h1 : 0 < now - g.game.lastTickTime)
    (h2 : now - g.game.lastTickTime < g.config.tickIntervalMs)
    (hT : 0 < g.game.timeLeftMs - (now - g.game.lastTickTime)) :
    processTicks g now rng = (timerCharged g now, rng) := by
  have hfloor : ⌊(now - g.game.lastTickTime) / g.config.tickIntervalMs⌋ = (0 : ℤ) := by
    rw [Int.floor_eq_zero_iff]
    exact ⟨div_nonneg h1.le hI.le, (div_lt_one hI).mpr h2⟩
  simp only [processTicks, timerCharged, hrun, ne_eq, not_true_eq_false, if_false,
    hfloor, lt_self_iff_false, ite_false]
  rw [if_neg (by simpa using hT.not_le)]

end SnakeGame

namespace SnakeGame

/-! ### Claim C10 -/

/-- C10: while running, a `processTicks` call with elapsed time strictly
between `0` and one tick interval subtracts the full elapsed amount from
`timeLeftMs` but leaves `lastTickTime` unchanged; hence two consecutive
such calls subtract strictly more from `timeLeftMs` than the wall-clock
time that actually passed since the last processed tick (each call
re-subtracts the interval since the unchanged `lastTickTime`). -/
theorem processTicks_subinterval_overcount
    (g : GlobalState) (t1 t2 : ℚ) (rngA rngB : Rng)
    (hrun : g.game.phase = Phase.running)
    (hI : 0 < g.config.tickIntervalMs)
    (h1a : 0 < t1 - g.game.lastTickTime)
    (h1b : t1 - g.game.lastTickTime < g.config.tickIntervalMs)
    (h2a : 0 < t2 - g.game.lastTickTime)
    (h2b : t2 - g.game.lastTickTime < g.config.tickIntervalMs)
    (hT1 : 0 < g.game.timeLeftMs - (t1 - g.game.lastTickTime))
    (hT2 : 0 < g.game.timeLeftMs - (t1 - g.game.lastTickTime)
        - (t2 - g.game.lastTickTime)) :
    (processTicks g t1 rngA).1.game.lastTickTime = g.game.lastTickTime ∧
    (processTicks g t1 rngA).1.game.timeLeftMs
      = g.game.timeLeftMs - (t1 - g.game.lastTickTime) ∧
    (processTicks (processTicks g t1 rngA).1 t2 rngB).1.game.timeLeftMs
      = g.game.timeLeftMs - (t1 - g.game.lastTickTime) - (t2 - g.game.lastTickTime) ∧
    g.game.timeLeftMs
        - (processTicks (processTicks g t1 rngA).1 t2 rngB).1.game.timeLeftMs
      > t2 - g.game.lastTickTime := by
  have e1 := processTicks_subinterval g t1 rngA hrun hI h1a h1b hT1
  have e2 := processTicks_subinterval (timerCharged g t1) t2 rngB
    (by simpa [timerCharged] using hrun) (by simpa [timerCharged] using hI)
    (by simpa [timerCharged] using h2a) (by simpa [timerCharged] using h2b)
    (by simp only [timerCharged]; linarith)
  refine ⟨?_, ?_, ?_, ?_⟩
  · rw [e1]; simp [timerCharged]
  · rw [e1]; simp [timerCharged]
  · rw [e1]
    simp only []
    rw [e2]
    simp [timerCharged]
  · rw [e1]
    simp only []
    rw [e2]
    simp only [timerCharged]
    linarith

/-- Witness for C10: interval 90 ms, last tick at time 0, two calls at
times 50 and 80. -/
theorem processTicks_subinterval_overcount_witness :
    baseState.game.phase = Phase.running ∧
    (processTicks baseState 50 []).1.game.lastTickTime = baseState.game.lastTickTime ∧
    (processTicks baseState 50 []).1.game.timeLeftMs
      = baseState.game.timeLeftMs - (50 - baseState.game.lastTickTime) ∧
    (processTicks (processTicks baseState 50 []).1 80 []).1.game.timeLeftMs
      = baseState.game.timeLeftMs - (50 - baseState.game.lastTickTime)
        - (80 - baseState.game.lastTickTime) ∧
    baseState.game.timeLeftMs
        - (processTicks (processTicks baseState 50 []).1 80 []).1.game.timeLeftMs
      > 80 - baseState.game.lastTickTime :=
  ⟨rfl, processTicks_subinterval_overcount baseState 50 80 [] [] rfl
    (by norm_num [baseState, baseConfig])
    (by norm_num [baseState, baseGame])
    (by norm_num [baseState, baseGame, baseConfig])
    (by norm_num [baseState, baseGame])
    (by norm_num [baseState, baseGame, baseConfig])
    (by norm_num [baseState, baseGame])
    (by norm_num [baseState, baseGame])⟩

/-! ### Claim C6 -/

/-- C6: one `processTicks` call executes at most the fixed cap of 5 steps
no matter how much wall-clock time elapsed: after a gap of 100 tick
intervals the call runs exactly the capped batch of 5 loop iterations (not
100), and the batch stops early as soon as the phase leaves `running`
(fewer than 5 steps are counted only when the batch ended the game). -/
theorem processTicks_cap (g : GlobalState) (now : ℚ) (rng : Rng)
    (hrun : g.game.phase = Phase.running)
    (hI : 0 < g.config.tickIntervalMs)
    (hgap : now - g.game.lastTickTime = 100 * g.config.tickIntervalMs)
    (hT : 0 < g.game.timeLeftMs - (now - g.game.lastTickTime)) :
    processTicks g now rng =
      ({ (runStepsCount 5 (timerCharged g now) rng).1.1 with
          game := { (runStepsCount 5 (timerCharged g now) rng).1.1.game with
            lastTickTime := now } },
        (runStepsCount 5 (timerCharged g now) rng).1.2) ∧
    (runStepsCount 5 (timerCharged g now) rng).2 ≤ 5 ∧
    ((runStepsCount 5 (timerCharged g now) rng).2 < 5 →
      (runStepsCount 5 (timerCharged g now) rng).1.1.game.phase ≠ Phase.running) := by
  refine ⟨?_, runStepsCount_le 5 _ _, runStepsCount_early_stop 5 _ _⟩
  have hfloor : ⌊(now - g.game.lastTickTime) / g.config.tickIntervalMs⌋ = (100 : ℤ) := by
    rw [hgap, mul_div_assoc, div_self hI.ne', mul_one]
    norm_num
  have hmin : (min (100 : ℤ) 5).toNat = 5 := by decide
  simp only [processTicks, timerCharged, hrun, ne_eq, not_true_eq_false, if_false,
    hfloor, hmin, runStepsCount_fst]
  rw [if_neg (by simpa using hT.not_le), if_pos (by norm_num)]

/-- Witness for C6: a concrete running state polled after a 9000 ms gap
(100 × the 90 ms interval). -/
theorem processTicks_cap_witness :
    baseState.game.phase = Phase.running ∧
    ((runStepsCount 5 (timerCharged baseState 9000) []).2 ≤ 5 ∧
      ((runStepsCount 5 (timerCharged baseState 9000) []).2 < 5 →
        (runStepsCount 5 (timerCharged baseState 9000) []).1.1.game.phase
          ≠ Phase.running)) :=
  ⟨rfl,
    (processTicks_cap baseState 9000 [] rfl
      (by norm_num [baseState, baseConfig])
      (by norm_num [baseState, baseConfig, baseGame])
      (by norm_num [baseState, baseConfig, baseGame])).2.1,
    (processTicks_cap baseState 9000 [] rfl
      (by norm_num [baseState, baseConfig])
      (by norm_num [baseState, baseConfig, baseGame])
      (by norm_num [baseState, baseConfig, baseGame])).2.2⟩

end SnakeGame

namespace SnakeGame

/-! ### Grid arithmetic lemmas -/

theorem boolIf_eq_true (P : Prop) [Decidable P] :
    ((if P then true else false) = true) ↔ P := by
  split <;> simp_all

theorem floor_aligned (c : ℚ) (hc : 0 < c) (k : ℤ) :
    ⌊((k : ℚ) * c + c / 2) / c⌋ = k := by
  have h : ((k : ℚ) * c + c / 2) / c = (k : ℚ) + 1 / 2 := by
    field_simp
    ring
  rw [h, Int.floor_int_add]
  norm_num

theorem toGridCell_aligned (c : ℚ) (hc : 0 < c) (k m : ℤ) :
    toGridCell ⟨(k : ℚ) * c + c / 2, (m : ℚ) * c + c / 2⟩ c = ⟨k, m⟩ := by
  simp [toGridCell, floor_aligned c hc]

theorem int_sq_sum_lt (k m : ℤ) (c : ℚ) (hc : 0 < c) :
    ((k : ℚ) * c) ^ 2 + ((m : ℚ) * c) ^ 2 < c * c ↔ k = 0 ∧ m = 0 := by
  constructor
  · intro h
    have hcast : ((k ^ 2 + m ^ 2 : ℤ) : ℚ) * (c * c) < 1 * (c * c) := by
      push_cast
      nlinarith [h]
    have hlt : ((k ^ 2 + m ^ 2 : ℤ) : ℚ) < 1 :=
      lt_of_mul_lt_mul_right hcast (by positivity)
    have hz : k ^ 2 + m ^ 2 < 1 := by exact_mod_cast hlt
    constructor
    · have : k ^ 2 = 0 := by nlinarith [sq_nonneg k, sq_nonneg m]
      exact pow_eq_zero_iff (n := 2) (by norm_num) |>.mp this
    · have : m ^ 2 = 0 := by nlinarith [sq_nonneg k, sq_nonneg m]
      exact pow_eq_zero_iff (n := 2) (by norm_num) |>.mp this
  · rintro ⟨rfl, rfl⟩
    simpa using by positivity

theorem abs_int_mul_lt_half (k : ℤ) (c : ℚ) (hc : 0 < c) :
    |(k : ℚ) * c| < c / 2 ↔ k = 0 := by
  rw [abs_mul, abs_of_pos hc]
  constructor
  · intro h
    by_contra hk
    have h1 : (1 : ℚ) ≤ |(k : ℚ)| := by
      have := Int.one_le_abs (by omega : k ≠ 0)
      exact_mod_cast this
    nlinarith [abs_nonneg ((k : ℚ))]
  · rintro rfl
    simpa using by linarith

/-! ### Claim C2 -/

/-- C2: for grid-aligned positions (pixel = cellIndex · cellSize +
cellSize/2) and a positive cell size, the engine's per-tick food-collision
test (`dist² < cell²`) and self-collision test (`|dx| < cell/2 ∧ |dy| <
cell/2`) succeed exactly when the two entities occupy the identical grid
cell under `toGridCell`: same cell implies collision, different cells
(adjacent or diagonal included) imply no collision. -/
theorem collision_tests_iff_same_grid_cell
    (c : ℚ) (hc : 0 < c) (a b : Pos)
    (ha : alignedQ c a) (hb : alignedQ c b)
    (f : Food) (hfx : f.x = b.x) (hfy : f.y = b.y) :
    (foodHit a f c = true ↔ toGridCell a c = toGridCell b c) ∧
    (selfHit a b c = true ↔ toGridCell a c = toGridCell b c) := by
  obtain ⟨ka, ma, hax, hay⟩ := ha
  obtain ⟨kb, mb, hbx, hby⟩ := hb
  have hcells : (toGridCell a c = toGridCell b c) ↔ (ka = kb ∧ ma = mb) := by
    have h1 : toGridCell a c = ⟨ka, ma⟩ := by
      have : a = ⟨(ka : ℚ) * c + c / 2, (ma : ℚ) * c + c / 2⟩ := by
        cases a
        simp_all
      rw [this]
      exact toGridCell_aligned c hc ka ma
    have h2 : toGridCell b c = ⟨kb, mb⟩ := by
      have : b = ⟨(kb : ℚ) * c + c / 2, (mb : ℚ) * c + c / 2⟩ := by
        cases b
        simp_all
      rw [this]
      exact toGridCell_aligned c hc kb mb
    rw [h1, h2]
    simp [GridCell.mk.injEq]
  have hdx : a.x - f.x = ((ka - kb : ℤ) : ℚ) * c := by
    rw [hax, hfx, hbx]
    push_cast
    ring
  have hdy : a.y - f.y = ((ma - mb : ℤ) : ℚ) * c := by
    rw [hay, hfy, hby]
    push_cast
    ring
  have hdx' : a.x - b.x = ((ka - kb : ℤ) : ℚ) * c := by
    rw [hax, hbx]
    push_cast
    ring
  have hdy' : a.y - b.y = ((ma - mb : ℤ) : ℚ) * c := by
    rw [hay, hby]
    push_cast
    ring
  constructor
  · rw [hcells]
    simp only [foodHit, boolIf_eq_true, hdx, hdy]
    rw [int_sq_sum_lt _ _ c hc]
    omega
  · rw [hcells]
    simp only [selfHit, boolIf_eq_true, hdx', hdy']
    rw [abs_int_mul_lt_half _ c hc, abs_int_mul_lt_half _ c hc]
    omega

/-- Witness for C2 at cell size 30 with adjacent cells (3,3) and (4,3):
neither test fires and the cells differ. -/
theorem collision_tests_iff_same_grid_cell_witness :
    (foodHit ⟨105, 105⟩ ⟨"f", 135, 105, "0"⟩ 30 = true ↔
      toGridCell ⟨105, 105⟩ 30 = toGridCell ⟨135, 105⟩ 30) ∧
    (selfHit ⟨105, 105⟩ ⟨135, 105⟩ 30 = true ↔
      toGridCell ⟨105, 105⟩ 30 = toGridCell ⟨135, 105⟩ 30) :=
  collision_tests_iff_same_grid_cell 30 (by norm_num) ⟨105, 105⟩ ⟨135, 105⟩
    ⟨3, 3, by norm_num, by norm_num⟩ ⟨4, 3, by norm_num, by norm_num⟩
    ⟨"f", 135, 105, "0"⟩ rfl rfl

end SnakeGame

namespace SnakeGame

/-! ### Structure lemmas about one simulation step -/

theorem stepFinish_snake (g : GlobalState) (nh : Pos) (rng : Rng) :
    (stepFinish g nh rng).1.game.snake = g.game.snake := by
  simp only [stepFinish]
  split <;> rfl

theorem stepFinish_activeMonitorId (g : GlobalState) (nh : Pos) (rng : Rng) :
    (stepFinish g nh rng).1.game.activeMonitorId = g.game.activeMonitorId := by
  simp only [stepFinish]
  split <;> rfl

theorem stepFinish_config (g : GlobalState) (nh : Pos) (rng : Rng) :
    (stepFinish g nh rng).1.config = g.config := by
  simp only [stepFinish]
  split <;> rfl

theorem stepFinish_phase (g : GlobalState) (nh : Pos) (rng : Rng) :
    (stepFinish g nh rng).1.game.phase = g.game.phase ∨
    ((stepFinish g nh rng).1.game.phase = Phase.ended ∧
      ((g.game.snake.drop 3).any
        (fun seg => selfHit nh seg g.config.gridCellSize)) = true) := by
  simp only [stepFinish]
  split
  · next h => exact Or.inr ⟨rfl, h⟩
  · exact Or.inl rfl

theorem stepMove_snake_cases (g : GlobalState) (nh : Pos) (rng : Rng) :
    (stepMove g nh rng).1.game.snake = nh :: g.game.snake ∨
    (stepMove g nh rng).1.game.snake = (nh :: g.game.snake).dropLast := by
  simp only [stepMove]
  split
  · left
    rw [stepFinish_snake]
  · right
    rw [stepFinish_snake]

theorem stepMove_head (g : GlobalState) (nh : Pos) (rng : Rng)
    (hne : g.game.snake ≠ []) :
    ((stepMove g nh rng).1.game.snake).head? = some nh := by
  rcases stepMove_snake_cases g nh rng with h | h <;> rw [h]
  · rfl
  · obtain ⟨a, t, ht⟩ := List.exists_cons_of_ne_nil hne
    rw [ht]
    rfl

theorem stepMove_activeMonitorId (g : GlobalState) (nh : Pos) (rng : Rng) :
    (stepMove g nh rng).1.game.activeMonitorId = g.game.activeMonitorId := by
  simp only [stepMove]
  split <;> rw [stepFinish_activeMonitorId]

theorem stepMove_phase (g : GlobalState) (nh : Pos) (rng : Rng) :
    (stepMove g nh rng).1.game.phase = g.game.phase ∨
    ((stepMove g nh rng).1.game.phase = Phase.ended ∧
      (((stepMove g nh rng).1.game.snake).drop 3).any
        (fun seg => selfHit nh seg g.config.gridCellSize) = true) := by
  simp only [stepMove]
  split
  · next fr heq =>
    rcases stepFinish_phase
        { g with game := { g.game with
            snake := nh :: g.game.snake
            foods := fr.2.reverse ++ (respawnFood g.config g.monitors fr.1.monitorId rng).1
            score := g.game.score + 10 } } nh
        (respawnFood g.config g.monitors fr.1.monitorId rng).2 with h | h
    · exact Or.inl h
    · refine Or.inr ⟨h.1, ?_⟩
      rw [stepFinish_snake]
      exact h.2
  · rcases stepFinish_phase
        { g with game := { g.game with snake := (nh :: g.game.snake).dropLast } } nh rng
        with h | h
    · exact Or.inl h
    · refine Or.inr ⟨h.1, ?_⟩
      rw [stepFinish_snake]
      exact h.2

end SnakeGame

namespace SnakeGame

theorem stepMove_phase_running (g : GlobalState) (nh : Pos) (rng : Rng)
    (hrun : g.game.phase = Phase.running) :
    (stepMove g nh rng).1.game.phase = Phase.running ∨
    ((stepMove g nh rng).1.game.phase = Phase.ended ∧
      (((stepMove g nh rng).1.game.snake).drop 3).any
        (fun seg => selfHit nh seg g.config.gridCellSize) = true) := by
  rcases stepMove_phase g nh rng with h | h
  · exact Or.inl (h.trans hrun)
  · exact Or.inr h

/-! ### Claim C1 -/

/-- C1: when the candidate head lies within the 80 px detection radius of
the entry of a portal sourced at the monitor currently containing the head
(first such portal in list order), the tick teleports: the new head is the
grid-snapped portal exit on the destination monitor, the active monitor id
becomes the destination, and wall collision is never the cause of an end
this tick — the phase stays `running` unless the self-collision test fires
at the exit. -/
theorem portal_precedence_over_wall (g : GlobalState) (mon : MonitorConfig)
    (p : Portal) (rng : Rng)
    (hrun : g.game.phase = Phase.running)
    (hne : g.game.snake ≠ [])
    (hmon : findMonitor g.monitors g.game.snake.headI = some mon)
    (hportal : g.portals.find? (portalQuery mon (localOf mon (candidateHead g)))
      = some p) :
    ((step g rng).1.game.snake).head? = some (snapToGrid
        ⟨(monitorOrigin g.monitors p.«to»).x + p.toPos.x,
         (monitorOrigin g.monitors p.«to»).y + p.toPos.y⟩ g.config.gridCellSize) ∧
    (step g rng).1.game.activeMonitorId = p.«to» ∧
    ((step g rng).1.game.phase = Phase.running ∨
      ((step g rng).1.game.phase = Phase.ended ∧
        (((step g rng).1.game.snake).drop 3).any
          (fun seg => selfHit (snapToGrid
            ⟨(monitorOrigin g.monitors p.«to»).x + p.toPos.x,
             (monitorOrigin g.monitors p.«to»).y + p.toPos.y⟩ g.config.gridCellSize)
            seg g.config.gridCellSize) = true)) := by
  simp only [step, hrun, eq_self_iff_true, if_true, hmon, hportal]
  refine ⟨stepMove_head _ _ _ hne, ?_, ?_⟩
  · rw [stepMove_activeMonitorId]
  · exact stepMove_phase_running _ _ _ rfl

end SnakeGame

namespace SnakeGame

/-- Witness for C1: with two monitors and the generated ring, a head at
(1785, 555) moving right has its candidate inside the portal radius; the
tick teleports to the snapped exit (2025, 555) on monitor "1". -/
theorem portal_precedence_over_wall_witness :
    ((step portalState []).1.game.snake).head? = some (snapToGrid
        ⟨(monitorOrigin portalState.monitors "1").x + (100 : ℚ),
         (monitorOrigin portalState.monitors "1").y + (540 : ℚ)⟩
        portalState.config.gridCellSize) ∧
    (step portalState []).1.game.activeMonitorId = "1" ∧
    ((step portalState []).1.game.phase = Phase.running ∨
      ((step portalState []).1.game.phase = Phase.ended ∧
        (((step portalState []).1.game.snake).drop 3).any
          (fun seg => selfHit (snapToGrid
            ⟨(monitorOrigin portalState.monitors "1").x + (100 : ℚ),
             (monitorOrigin portalState.monitors "1").y + (540 : ℚ)⟩
            portalState.config.gridCellSize)
            seg portalState.config.gridCellSize) = true)) :=
  portal_precedence_over_wall portalState ⟨"0", 0, 0⟩
    ⟨"0", "1", ⟨1840, 540⟩, ⟨100, 540⟩⟩ [] rfl (by decide)
    (by norm_num [portalState, mons2, baseGame, findMonitor, List.find?,
      boolIf_eq_true, MONITOR_W, MONITOR_H, List.headI])
    (by norm_num [portalState, mons2, ports2, baseGame, baseConfig, candidateHead,
      localOf, portalQuery, inPortalRadius, dirDx, dirDy, List.find?,
      boolIf_eq_true, List.headI, MONITOR_W, MONITOR_H, PORTAL_RADIUS])

end SnakeGame

namespace SnakeGame

/-! ### Claim C5 (corrected) -/

/-- C5 counterexample: a head at (45, 555) moving left has candidate local
position (15, 555).  The spec's `cellSize/2` predicate says this is not a
boundary event (15 < 15 is false), yet the engine ends the game and leaves
the snake unmodified — the engine's threshold is `cellSize`, not
`cellSize/2`. -/
theorem wall_threshold_counterexample :
    (step cxWallState []).1.game.phase = Phase.ended ∧
    (step cxWallState []).1.game.snake = cxWallState.game.snake ∧
    specWallClose cxWallState.config.gridCellSize
      (localOf mon0 (candidateHead cxWallState)) = false := by
  refine ⟨?_, ?_, ?_⟩
  · norm_num [step, cxWallState, baseGame, baseConfig, mon0, findMonitor,
      List.find?, boolIf_eq_true, candidateHead, localOf, dirDx, dirDy,
      wallHit, List.headI, MONITOR_W, MONITOR_H]
  · norm_num [step, cxWallState, baseGame, baseConfig, mon0, findMonitor,
      List.find?, boolIf_eq_true, candidateHead, localOf, dirDx, dirDy,
      wallHit, List.headI, MONITOR_W, MONITOR_H]
  · norm_num [specWallClose, cxWallState, baseGame, baseConfig, mon0,
      candidateHead, localOf, dirDx, dirDy, List.headI, MONITOR_W, MONITOR_H]

end SnakeGame

namespace SnakeGame

theorem candidateHead_ne_head (g : GlobalState) (hc : g.config.gridCellSize ≠ 0) :
    candidateHead g ≠ g.game.snake.headI := by
  intro h
  have hx : dirDx g.game.nextDir g.config.gridCellSize = 0 := by
    have h2 := congrArg Pos.x h
    simp [candidateHead] at h2
    linarith
  have hy : dirDy g.game.nextDir g.config.gridCellSize = 0 := by
    have h2 := congrArg Pos.y h
    simp [candidateHead] at h2
    linarith
  cases hd : g.game.nextDir with
  | up =>
    rw [hd] at hy
    simp [dirDy] at hy
    exact hc hy
  | down =>
    rw [hd] at hy
    simp [dirDy] at hy
    exact hc hy
  | left =>
    rw [hd] at hx
    simp [dirDx] at hx
    exact hc hx
  | right =>
    rw [hd] at hx
    simp [dirDx] at hx
    exact hc hx

theorem stepMove_snake_ne (g : GlobalState) (nh : Pos) (rng : Rng)
    (hne : g.game.snake ≠ [])
    (hdelta : nh ≠ g.game.snake.headI) :
    (stepMove g nh rng).1.game.snake ≠ g.game.snake := by
  rcases stepMove_snake_cases g nh rng with h | h <;> rw [h]
  · exact List.cons_ne_self _ _
  · obtain ⟨a, t, hat⟩ := List.exists_cons_of_ne_nil hne
    rw [hat, List.dropLast_cons₂]
    intro hcontra
    have hhead : nh = a := by
      have h2 := congrArg List.head? hcontra
      simpa using h2
    exact hdelta (by simp [hat, List.headI, hhead])

/-- C5 amended: during a tick with no portal hit, the candidate head counts
as a wall event exactly when its monitor-local coordinate is within
`cellSize` (not `cellSize/2`) of one of the four edges — `localX < cell`,
`localX > MONITOR_W - cell`, or likewise for `y`; on such a wall collision
the phase is set to `ended` with the snake left unmodified (only the
direction commit survives), and with no wall collision the snake does
change. -/
theorem wall_event_iff_within_cell (g : GlobalState) (mon : MonitorConfig)
    (rng : Rng)
    (hrun : g.game.phase = Phase.running)
    (hne : g.game.snake ≠ [])
    (hc : g.config.gridCellSize ≠ 0)
    (hmon : findMonitor g.monitors g.game.snake.headI = some mon)
    (hportal : g.portals.find? (portalQuery mon (localOf mon (candidateHead g)))
      = none) :
    (wallHit g.config.gridCellSize (localOf mon (candidateHead g)) = true →
      (step g rng).1 =
        { g with game := { g.game with dir := g.game.nextDir, phase := Phase.ended } }) ∧
    ((step g rng).1.game.phase = Phase.ended ∧
        (step g rng).1.game.snake = g.game.snake ↔
      wallHit g.config.gridCellSize (localOf mon (candidateHead g)) = true) := by
  simp only [step, hrun, eq_self_iff_true, if_true, hmon, hportal]
  by_cases hw : wallHit g.config.gridCellSize (localOf mon (candidateHead g)) = true
  · rw [if_pos hw]
    refine ⟨fun _ => rfl, ?_⟩
    rw [iff_true_intro hw]
    simp
  · rw [if_neg hw]
    refine ⟨fun h => absurd h hw, ?_⟩
    rw [iff_false_intro hw]
    simp only [iff_false, not_and]
    intro _ hsnake
    exact stepMove_snake_ne _ _ _ (by exact hne) (by exact candidateHead_ne_head g hc) hsnake

end SnakeGame

namespace SnakeGame

/-- Witness for the amended C5 at the concrete wall state: local candidate
(15, 555) is within one cell of the left edge, so the tick ends the game
with the snake untouched. -/
theorem wall_event_iff_within_cell_witness :
    (wallHit cxWallState.config.gridCellSize
        (localOf mon0 (candidateHead cxWallState)) = true →
      (step cxWallState []).1 =
        { cxWallState with game := { cxWallState.game with
            dir := cxWallState.game.nextDir, phase := Phase.ended } }) ∧
    ((step cxWallState []).1.game.phase = Phase.ended ∧
        (step cxWallState []).1.game.snake = cxWallState.game.snake ↔
      wallHit cxWallState.config.gridCellSize
        (localOf mon0 (candidateHead cxWallState)) = true) :=
  wall_event_iff_within_cell cxWallState mon0 [] rfl (by decide)
    (by norm_num [cxWallState, baseConfig])
    (by norm_num [cxWallState, baseGame, mon0, findMonitor, List.find?,
      boolIf_eq_true, List.headI, MONITOR_W, MONITOR_H])
    rfl

end SnakeGame

namespace SnakeGame

/-! ### Claim C4 (corrected) -/

theorem selfHit_same_cell (c : ℚ) (hc : 0 < c) (a b : Pos)
    (ha : alignedQ c a) (hb : alignedQ c b)
    (h : selfHit a b c = true) : toGridCell a c = toGridCell b c := by
  obtain ⟨ka, ma, hax, hay⟩ := ha
  obtain ⟨kb, mb, hbx, hby⟩ := hb
  rw [selfHit, boolIf_eq_true] at h
  have hdx : a.x - b.x = ((ka - kb : ℤ) : ℚ) * c := by
    rw [hax, hbx]; push_cast; ring
  have hdy : a.y - b.y = ((ma - mb : ℤ) : ℚ) * c := by
    rw [hay, hby]; push_cast; ring
  have hk : ka = kb := by
    have := (abs_int_mul_lt_half (ka - kb) c hc).mp (by rw [← hdx]; exact h.1)
    omega
  have hm : ma = mb := by
    have := (abs_int_mul_lt_half (ma - mb) c hc).mp (by rw [← hdy]; exact h.2)
    omega
  have hA : a = ⟨(ka : ℚ) * c + c / 2, (ma : ℚ) * c + c / 2⟩ := by
    cases a; simp_all
  have hB : b = ⟨(kb : ℚ) * c + c / 2, (mb : ℚ) * c + c / 2⟩ := by
    cases b; simp_all
  rw [hA, hB, toGridCell_aligned c hc, toGridCell_aligned c hc, hk, hm]

theorem snapToGrid_aligned (c : ℚ) (p : Pos) : alignedQ c (snapToGrid p c) :=
  ⟨⌊p.x / c⌋, ⌊p.y / c⌋, rfl, rfl⟩

theorem stepMove_headI (g : GlobalState) (nh : Pos) (rng : Rng)
    (hne : g.game.snake ≠ []) :
    ((stepMove g nh rng).1.game.snake).headI = nh := by
  rcases stepMove_snake_cases g nh rng with h | h <;> rw [h]
  · rfl
  · obtain ⟨a, t, hat⟩ := List.exists_cons_of_ne_nil hne
    rw [hat, List.dropLast_cons₂]
    rfl

theorem stepMove_snake_subset (g : GlobalState) (nh : Pos) (rng : Rng) :
    ∀ s ∈ (stepMove g nh rng).1.game.snake, s = nh ∨ s ∈ g.game.snake := by
  intro s hs
  rcases stepMove_snake_cases g nh rng with h | h <;> rw [h] at hs
  · rw [List.mem_cons] at hs
    rcases hs with rfl | hs
    · exact Or.inl rfl
    · exact Or.inr hs
  · have hs2 := List.dropLast_subset _ hs
    rw [List.mem_cons] at hs2
    rcases hs2 with rfl | hs2
    · exact Or.inl rfl
    · exact Or.inr hs2

/-- The common extraction: if a `stepMove` on a running, grid-aligned,
nonempty snake ends the game, then the self-collision scan fired, and the
returned snake contains the new head's grid cell again at some index ≥ 3. -/
theorem stepMove_overlap (g : GlobalState) (nh : Pos) (rng : Rng)
    (hrun : g.game.phase = Phase.running)
    (hne : g.game.snake ≠ [])
    (hc : 0 < g.config.gridCellSize)
    (halnh : alignedQ g.config.gridCellSize nh)
    (hal : ∀ q ∈ g.game.snake, alignedQ g.config.gridCellSize q)
    (hend : (stepMove g nh rng).1.game.phase = Phase.ended) :
    ∃ i, 3 ≤ i ∧ ∃ s, ((stepMove g nh rng).1.game.snake)[i]? = some s ∧
      toGridCell (((stepMove g nh rng).1.game.snake).headI) g.config.gridCellSize =
        toGridCell s g.config.gridCellSize := by
  rcases stepMove_phase_running g nh rng hrun with h | h
  · rw [hend] at h
    exact absurd h (by decide)
  · obtain ⟨-, hany⟩ := h
    rw [List.any_eq_true] at hany
    obtain ⟨s, hmem, hhit⟩ := hany
    obtain ⟨j, hj⟩ := List.mem_iff_getElem?.mp hmem
    refine ⟨3 + j, by omega, s, ?_, ?_⟩
    · rw [← List.getElem?_drop]
      exact hj
    · have hsal : alignedQ g.config.gridCellSize s := by
        have hmem2 : s ∈ (stepMove g nh rng).1.game.snake :=
          List.drop_subset _ _ hmem
        rcases stepMove_snake_subset g nh rng s hmem2 with rfl | hin
        · exact halnh
        · exact hal s hin
      rw [stepMove_headI g nh rng hne]
      exact selfHit_same_cell _ hc _ _ halnh hsal hhit

end SnakeGame

namespace SnakeGame

theorem headI_mem_of_ne_nil (l : List Pos) (hne : l ≠ []) : l.headI ∈ l := by
  obtain ⟨a, t, hat⟩ := List.exists_cons_of_ne_nil hne
  rw [hat]
  exact List.mem_cons_self _ _

theorem candidateHead_aligned (g : GlobalState) (hne : g.game.snake ≠ [])
    (hal : ∀ q ∈ g.game.snake, alignedQ g.config.gridCellSize q) :
    alignedQ g.config.gridCellSize (candidateHead g) := by
  obtain ⟨k, m, hx, hy⟩ := hal _ (headI_mem_of_ne_nil _ hne)
  cases hd : g.game.nextDir with
  | up =>
    exact ⟨k, m - 1, by simp [candidateHead, hd, dirDx, hx],
      by simp [candidateHead, hd, dirDy, hy]; ring⟩
  | down =>
    exact ⟨k, m + 1, by simp [candidateHead, hd, dirDx, hx],
      by simp [candidateHead, hd, dirDy, hy]; ring⟩
  | left =>
    exact ⟨k - 1, m, by simp [candidateHead, hd, dirDx, hx]; ring,
      by simp [candidateHead, hd, dirDy, hy]⟩
  | right =>
    exact ⟨k + 1, m, by simp [candidateHead, hd, dirDx, hx]; ring,
      by simp [candidateHead, hd, dirDy, hy]⟩

/-- C4 amended: a self-collision game-over returns an observably overlapping
snake.  Whenever a running tick on a nonempty grid-aligned snake ends the
game with a modified snake (a self-collision ending), the snake the engine
keeps and hands back to the caller contains the new head's grid cell a
second time at some index ≥ 3: the engine neither restores the pre-move
snake nor hides the overlap. -/
theorem self_collision_end_returns_overlap (g : GlobalState) (rng : Rng)
    (hrun : g.game.phase = Phase.running)
    (hne : g.game.snake ≠ [])
    (hc : 0 < g.config.gridCellSize)
    (hal : ∀ q ∈ g.game.snake, alignedQ g.config.gridCellSize q)
    (hend : (step g rng).1.game.phase = Phase.ended)
    (hch : (step g rng).1.game.snake ≠ g.game.snake) :
    ∃ i, 3 ≤ i ∧ ∃ s, ((step g rng).1.game.snake)[i]? = some s ∧
      toGridCell (((step g rng).1.game.snake).headI) g.config.gridCellSize =
        toGridCell s g.config.gridCellSize := by
  revert hend hch
  simp only [step, hrun, eq_self_iff_true, if_true]
  rcases hfm : findMonitor g.monitors g.game.snake.headI with _ | mon
  · dsimp only
    intro hend hch
    exact stepMove_overlap _ _ _ rfl (by exact hne) (by exact hc)
      (by exact snapToGrid_aligned _ _) (by exact hal) hend
  · dsimp only
    rcases hp : g.portals.find? (portalQuery mon (localOf mon (candidateHead g)))
      with _ | p
    · dsimp only
      intro hend hch
      by_cases hw : wallHit g.config.gridCellSize (localOf mon (candidateHead g)) = true
      · rw [if_pos hw] at hch
        exact absurd rfl hch
      · rw [if_neg hw] at hend hch ⊢
        exact stepMove_overlap _ _ _ rfl (by exact hne) (by exact hc)
          (by exact candidateHead_aligned g hne hal) (by exact hal) hend
    · dsimp only
      intro hend hch
      exact stepMove_overlap _ _ _ rfl (by exact hne) (by exact hc)
        (by exact snapToGrid_aligned _ _) (by exact hal) hend

end SnakeGame

namespace SnakeGame

/-! ### Evaluation of the concrete traces -/

theorem c4g1_eq : c4g1 =
    { config :=
        { monitorCount := 1
          timerSeconds := 60
          foodPerMonitor := 3
          gridCellSize := 30
          tickIntervalMs := 90
          snakeSpeed := 8 }
      monitors := [⟨"0", 0, 0⟩]
      portals := [⟨"0", "0", ⟨1840, 540⟩, ⟨100, 540⟩⟩]
      game :=
        { phase := .idle
          score := 0
          dir := .right
          nextDir := .right
          snake := [⟨975, 555⟩, ⟨945, 555⟩]
          foods := []
          activeMonitorId := "0"
          tick := 0
          lastTickTime := 0
          timeLeftMs := 60000
          totalTimeMs := 60000 } } := by
  norm_num [c4g1, c4g0, setupGame, createInitialState, createConfig,
    createInitialGameState, generateMonitors, generatePortals, ceilSqrt,
    Nat.sqrt_zero, snapToGrid, dummyMonitor, MONITOR_W, MONITOR_H, DEFAULT_CELL,
    List.range_succ, List.range_zero]
  rfl

end SnakeGame

namespace SnakeGame

theorem c4p2_eq : c4p2.1.1 =
    { config :=
        { monitorCount := 1
          timerSeconds := 60
          foodPerMonitor := 3
          gridCellSize := 30
          tickIntervalMs := 90
          snakeSpeed := 8 }
      monitors := [⟨"0", 0, 0⟩]
      portals := [⟨"0", "0", ⟨1840, 540⟩, ⟨100, 540⟩⟩]
      game :=
        { phase := .running
          score := 0
          dir := .right
          nextDir := .right
          snake := [⟨975, 555⟩, ⟨945, 555⟩]
          foods := [⟨"0_1", 1005, 555, "0"⟩, ⟨"0_1", 1035, 555, "0"⟩,
                    ⟨"0_1", 1065, 555, "0"⟩]
          activeMonitorId := "0"
          tick := 0
          lastTickTime := 0
          timeLeftMs := 60000
          totalTimeMs := 60000 } } ∧ c4p2.1.2 = [] := by
  constructor <;>
    norm_num [c4p2, c4g1_eq, c4rng, startGame, spawnFoods, spawnLoop, spawnOneFood,
      makeId, rand, snapToGrid, MONITOR_W, MONITOR_H] <;>
    rfl

end SnakeGame

namespace SnakeGame

theorem c4p3_eq : c4p3.1.1 =
    { config :=
        { monitorCount := 1
          timerSeconds := 60
          foodPerMonitor := 3
          gridCellSize := 30
          tickIntervalMs := 90
          snakeSpeed := 8 }
      monitors := [⟨"0", 0, 0⟩]
      portals := [⟨"0", "0", ⟨1840, 540⟩, ⟨100, 540⟩⟩]
      game :=
        { phase := .running
          score := 10
          dir := .right
          nextDir := .right
          snake := [⟨1005, 555⟩, ⟨975, 555⟩, ⟨945, 555⟩]
          foods := [⟨"0_1", 1035, 555, "0"⟩, ⟨"0_1", 1065, 555, "0"⟩, ⟨"0_1", 105, 105, "0"⟩]
          activeMonitorId := "0"
          tick := 1
          lastTickTime := 90
          timeLeftMs := 59910
          totalTimeMs := 60000 } } ∧ c4p3.1.2 = [] := by
  constructor <;>
    norm_num [c4p3, c4p2_eq.1, c4p2_eq.2, getGameState, processTicks, runSteps, step, stepMove, stepFinish, eatScan,
      respawnFood, spawnOneFood, foodHit, selfHit, inPortalRadius, portalQuery,
      wallHit, boolIf_eq_true, candidateHead, localOf, dirDx, dirDy, findMonitor,
      monitorOrigin, List.find?, List.headI, makeId, rand, snapToGrid,
      MONITOR_W, MONITOR_H, PORTAL_RADIUS, min_def] <;>
    rfl

theorem c4p4_eq : c4p4.1.1 =
    { config :=
        { monitorCount := 1
          timerSeconds := 60
          foodPerMonitor := 3
          gridCellSize := 30
          tickIntervalMs := 90
          snakeSpeed := 8 }
      monitors := [⟨"0", 0, 0⟩]
      portals := [⟨"0", "0", ⟨1840, 540⟩, ⟨100, 540⟩⟩]
      game :=
        { phase := .running
          score := 20
          dir := .right
          nextDir := .right
          snake := [⟨1035, 555⟩, ⟨1005, 555⟩, ⟨975, 555⟩, ⟨945, 555⟩]
          foods := [⟨"0_1", 1065, 555, "0"⟩, ⟨"0_1", 105, 105, "0"⟩, ⟨"0_1", 105, 105, "0"⟩]
          activeMonitorId := "0"
          tick := 2
          lastTickTime := 180
          timeLeftMs := 59820
          totalTimeMs := 60000 } } ∧ c4p4.1.2 = [] := by
  constructor <;>
    norm_num [c4p4, c4p3_eq.1, c4p3_eq.2, getGameState, processTicks, runSteps, step, stepMove, stepFinish, eatScan,
      respawnFood, spawnOneFood, foodHit, selfHit, inPortalRadius, portalQuery,
      wallHit, boolIf_eq_true, candidateHead, localOf, dirDx, dirDy, findMonitor,
      monitorOrigin, List.find?, List.headI, makeId, rand, snapToGrid,
      MONITOR_W, MONITOR_H, PORTAL_RADIUS, min_def] <;>
    rfl

theorem c4p5_eq : c4p5.1.1 =
    { config :=
        { monitorCount := 1
          timerSeconds := 60
          foodPerMonitor := 3
          gridCellSize := 30
          tickIntervalMs := 90
          snakeSpeed := 8 }
      monitors := [⟨"0", 0, 0⟩]
      portals := [⟨"0", "0", ⟨1840, 540⟩, ⟨100, 540⟩⟩]
      game :=
        { phase := .running
          score := 30
          dir := .right
          nextDir := .right
          snake := [⟨1065, 555⟩, ⟨1035, 555⟩, ⟨1005, 555⟩, ⟨975, 555⟩, ⟨945, 555⟩]
          foods := [⟨"0_1", 105, 105, "0"⟩, ⟨"0_1", 105, 105, "0"⟩, ⟨"0_1", 105, 105, "0"⟩]
          activeMonitorId := "0"
          tick := 3
          lastTickTime := 270
          timeLeftMs := 59730
          totalTimeMs := 60000 } } ∧ c4p5.1.2 = [] := by
  constructor <;>
    norm_num [c4p5, c4p4_eq.1, c4p4_eq.2, getGameState, processTicks, runSteps, step, stepMove, stepFinish, eatScan,
      respawnFood, spawnOneFood, foodHit, selfHit, inPortalRadius, portalQuery,
      wallHit, boolIf_eq_true, candidateHead, localOf, dirDx, dirDy, findMonitor,
      monitorOrigin, List.find?, List.headI, makeId, rand, snapToGrid,
      MONITOR_W, MONITOR_H, PORTAL_RADIUS, min_def] <;>
    rfl

theorem c4q5_eq : c4q5.1 =
    { config :=
        { monitorCount := 1
          timerSeconds := 60
          foodPerMonitor := 3
          gridCellSize := 30
          tickIntervalMs := 90
          snakeSpeed := 8 }
      monitors := [⟨"0", 0, 0⟩]
      portals := [⟨"0", "0", ⟨1840, 540⟩, ⟨100, 540⟩⟩]
      game :=
        { phase := .running
          score := 30
          dir := .right
          nextDir := .up
          snake := [⟨1065, 555⟩, ⟨1035, 555⟩, ⟨1005, 555⟩, ⟨975, 555⟩, ⟨945, 555⟩]
          foods := [⟨"0_1", 105, 105, "0"⟩, ⟨"0_1", 105, 105, "0"⟩, ⟨"0_1", 105, 105, "0"⟩]
          activeMonitorId := "0"
          tick := 3
          lastTickTime := 270
          timeLeftMs := 59730
          totalTimeMs := 60000 } } := by
  norm_num [c4q5, c4p5_eq.1, setDirection, opposite, reduceCtorEq]
  rfl

theorem c4p6_eq : c4p6.1.1 =
    { config :=
        { monitorCount := 1
          timerSeconds := 60
          foodPerMonitor := 3
          gridCellSize := 30
          tickIntervalMs := 90
          snakeSpeed := 8 }
      monitors := [⟨"0", 0, 0⟩]
      portals := [⟨"0", "0", ⟨1840, 540⟩, ⟨100, 540⟩⟩]
      game :=
        { phase := .running
          score := 30
          dir := .up
          nextDir := .up
          snake := [⟨1065, 525⟩, ⟨1065, 555⟩, ⟨1035, 555⟩, ⟨1005, 555⟩, ⟨975, 555⟩]
          foods := [⟨"0_1", 105, 105, "0"⟩, ⟨"0_1", 105, 105, "0"⟩, ⟨"0_1", 105, 105, "0"⟩]
          activeMonitorId := "0"
          tick := 4
          lastTickTime := 360
          timeLeftMs := 59640
          totalTimeMs := 60000 } } ∧ c4p6.1.2 = [] := by
  constructor <;>
    norm_num [c4p6, c4q5_eq, c4p5_eq.2, getGameState, processTicks, runSteps, step, stepMove, stepFinish, eatScan,
      respawnFood, spawnOneFood, foodHit, selfHit, inPortalRadius, portalQuery,
      wallHit, boolIf_eq_true, candidateHead, localOf, dirDx, dirDy, findMonitor,
      monitorOrigin, List.find?, List.headI, makeId, rand, snapToGrid,
      MONITOR_W, MONITOR_H, PORTAL_RADIUS, min_def]

theorem c4q6_eq : c4q6.1 =
    { config :=
        { monitorCount := 1
          timerSeconds := 60
          foodPerMonitor := 3
          gridCellSize := 30
          tickIntervalMs := 90
          snakeSpeed := 8 }
      monitors := [⟨"0", 0, 0⟩]
      portals := [⟨"0", "0", ⟨1840, 540⟩, ⟨100, 540⟩⟩]
      game :=
        { phase := .running
          score := 30
          dir := .up
          nextDir := .left
          snake := [⟨1065, 525⟩, ⟨1065, 555⟩, ⟨1035, 555⟩, ⟨1005, 555⟩, ⟨975, 555⟩]
          foods := [⟨"0_1", 105, 105, "0"⟩, ⟨"0_1", 105, 105, "0"⟩, ⟨"0_1", 105, 105, "0"⟩]
          activeMonitorId := "0"
          tick := 4
          lastTickTime := 360
          timeLeftMs := 59640
          totalTimeMs := 60000 } } := by
  norm_num [c4q6, c4p6_eq.1, setDirection, opposite, reduceCtorEq]
  rfl

theorem c4p7_eq : c4p7.1.1 =
    { config :=
        { monitorCount := 1
          timerSeconds := 60
          foodPerMonitor := 3
          gridCellSize := 30
          tickIntervalMs := 90
          snakeSpeed := 8 }
      monitors := [⟨"0", 0, 0⟩]
      portals := [⟨"0", "0", ⟨1840, 540⟩, ⟨100, 540⟩⟩]
      game :=
        { phase := .running
          score := 30
          dir := .left
          nextDir := .left
          snake := [⟨1035, 525⟩, ⟨1065, 525⟩, ⟨1065, 555⟩, ⟨1035, 555⟩, ⟨1005, 555⟩]
          foods := [⟨"0_1", 105, 105, "0"⟩, ⟨"0_1", 105, 105, "0"⟩, ⟨"0_1", 105, 105, "0"⟩]
          activeMonitorId := "0"
          tick := 5
          lastTickTime := 450
          timeLeftMs := 59550
          totalTimeMs := 60000 } } ∧ c4p7.1.2 = [] := by
  constructor <;>
    norm_num [c4p7, c4q6_eq, c4p6_eq.2, getGameState, processTicks, runSteps, step, stepMove, stepFinish, eatScan,
      respawnFood, spawnOneFood, foodHit, selfHit, inPortalRadius, portalQuery,
      wallHit, boolIf_eq_true, candidateHead, localOf, dirDx, dirDy, findMonitor,
      monitorOrigin, List.find?, List.headI, makeId, rand, snapToGrid,
      MONITOR_W, MONITOR_H, PORTAL_RADIUS, min_def]

theorem c4q7_eq : c4q7.1 =
    { config :=
        { monitorCount := 1
          timerSeconds := 60
          foodPerMonitor := 3
          gridCellSize := 30
          tickIntervalMs := 90
          snakeSpeed := 8 }
      monitors := [⟨"0", 0, 0⟩]
      portals := [⟨"0", "0", ⟨1840, 540⟩, ⟨100, 540⟩⟩]
      game :=
        { phase := .running
          score := 30
          dir := .left
          nextDir := .down
          snake := [⟨1035, 525⟩, ⟨1065, 525⟩, ⟨1065, 555⟩, ⟨1035, 555⟩, ⟨1005, 555⟩]
          foods := [⟨"0_1", 105, 105, "0"⟩, ⟨"0_1", 105, 105, "0"⟩, ⟨"0_1", 105, 105, "0"⟩]
          activeMonitorId := "0"
          tick := 5
          lastTickTime := 450
          timeLeftMs := 59550
          totalTimeMs := 60000 } } := by
  norm_num [c4q7, c4p7_eq.1, setDirection, opposite, reduceCtorEq]
  rfl

theorem c4p8_eq : c4p8.2 =
    { phase := .ended
      score := 30
      dir := .down
      nextDir := .down
      snake := [⟨1035, 555⟩, ⟨1035, 525⟩, ⟨1065, 525⟩, ⟨1065, 555⟩, ⟨1035, 555⟩]
      foods := [⟨"0_1", 105, 105, "0"⟩, ⟨"0_1", 105, 105, "0"⟩, ⟨"0_1", 105, 105, "0"⟩]
      activeMonitorId := "0"
      tick := 5
      lastTickTime := 540
      timeLeftMs := 59460
      totalTimeMs := 60000 } := by
  norm_num [c4p8, getGameState, c4q7_eq, c4p7_eq.2, processTicks, runSteps, step,
    stepMove, stepFinish, eatScan,
      respawnFood, spawnOneFood, foodHit, selfHit, inPortalRadius, portalQuery,
      wallHit, boolIf_eq_true, candidateHead, localOf, dirDx, dirDy, findMonitor,
      monitorOrigin, List.find?, List.headI, makeId, rand, snapToGrid,
      MONITOR_W, MONITOR_H, PORTAL_RADIUS, min_def]

end SnakeGame

namespace SnakeGame

/-- C4 counterexample: a legal run of the public API — `setupGame`,
`startGame`, three food pickups, three turns — ends with a self-collision
tick whose `getGameState` snapshot contains the head's grid cell (34, 18)
twice (indices 0 and 4): an observably overlapping snake is returned. -/
theorem self_overlap_returned_counterexample :
    c4p8.2.phase = Phase.ended ∧
    ¬ (c4p8.2.snake.map (fun s => toGridCell s 30)).Nodup := by
  rw [c4p8_eq]
  constructor
  · rfl
  · norm_num [toGridCell]

/-- Evaluation of the single step out of `selfHitState`: the game ends by
self collision and the moved snake is returned. -/
theorem selfHitState_step_eq :
    (step selfHitState []).1.game.phase = Phase.ended ∧
    (step selfHitState []).1.game.snake =
      [⟨1035, 555⟩, ⟨1035, 525⟩, ⟨1065, 525⟩, ⟨1035, 555⟩] := by
  constructor <;>
    norm_num [selfHitState, baseGame, baseConfig, mon0, step, stepMove, stepFinish,
      eatScan, respawnFood, spawnOneFood, foodHit, selfHit, inPortalRadius,
      portalQuery, wallHit, boolIf_eq_true, candidateHead, localOf, dirDx, dirDy,
      findMonitor, monitorOrigin, List.find?, List.headI, makeId, rand, snapToGrid,
      MONITOR_W, MONITOR_H, PORTAL_RADIUS]

/-- Witness for the amended C4 at `selfHitState`. -/
theorem self_collision_end_returns_overlap_witness :
    selfHitState.game.phase = Phase.running ∧
    ∃ i, 3 ≤ i ∧ ∃ s, ((step selfHitState []).1.game.snake)[i]? = some s ∧
      toGridCell (((step selfHitState []).1.game.snake).headI)
          selfHitState.config.gridCellSize =
        toGridCell s selfHitState.config.gridCellSize :=
  ⟨rfl, self_collision_end_returns_overlap selfHitState [] rfl (by decide)
    (by norm_num [selfHitState, baseConfig])
    (by
      intro q hq
      simp only [selfHitState, baseGame, List.mem_cons, List.not_mem_nil,
        or_false] at hq
      rcases hq with rfl | rfl | rfl | rfl
      · exact ⟨34, 17, by norm_num [selfHitState, baseConfig], by norm_num [selfHitState, baseConfig]⟩
      · exact ⟨35, 17, by norm_num [selfHitState, baseConfig], by norm_num [selfHitState, baseConfig]⟩
      · exact ⟨34, 18, by norm_num [selfHitState, baseConfig], by norm_num [selfHitState, baseConfig]⟩
      · exact ⟨35, 18, by norm_num [selfHitState, baseConfig], by norm_num [selfHitState, baseConfig]⟩)
    selfHitState_step_eq.1
    (by
      rw [selfHitState_step_eq.2]
      norm_num [selfHitState, baseGame])⟩

end SnakeGame

namespace SnakeGame

theorem c3p_eq : c3p.2.foods = [⟨"0_1", 975, 555, "0"⟩] ∧
    c3p.2.snake.headI = ⟨975, 555⟩ := by
  constructor <;>
    norm_num [c3p, c3g1, c3rng, setupGame, createInitialState, createConfig,
      createInitialGameState, generateMonitors, generatePortals, ceilSqrt,
      Nat.sqrt_zero, dummyMonitor, List.range_succ, List.range_zero,
      startGame, spawnFoods, spawnLoop, spawnOneFood, makeId, rand, snapToGrid,
      MONITOR_W, MONITOR_H, DEFAULT_CELL, List.headI] <;>
    rfl

/-- C3 counterexample: `startGame` with an adversarial random draw adds a
food at (975, 555) — the exact grid cell (32, 18) occupied by the snake's
head — so the added food position is not on an unoccupied cell; the engine
performs no occupancy check at all. -/
theorem spawn_overlap_counterexample :
    c3p.2.foods = [⟨"0_1", 975, 555, "0"⟩] ∧
    c3p.2.snake.headI = ⟨975, 555⟩ ∧
    toGridCell ⟨975, 555⟩ 30 = toGridCell c3p.2.snake.headI 30 := by
  refine ⟨c3p_eq.1, c3p_eq.2, ?_⟩
  rw [c3p_eq.2]

end SnakeGame

namespace SnakeGame

/-! ### Claim C3 (corrected) — spawn characterisation -/

theorem rand_bounds (rng : Rng) (hr : ∀ q ∈ rng, 0 ≤ q ∧ q < 1) :
    (0 ≤ (rand rng).1 ∧ (rand rng).1 < 1) ∧
    ∀ q ∈ (rand rng).2, 0 ≤ q ∧ q < 1 := by
  cases rng with
  | nil =>
    refine ⟨⟨by norm_num [rand], by norm_num [rand]⟩, ?_⟩
    intro q hq
    simp [rand] at hq
  | cons a t =>
    exact ⟨hr a (List.mem_cons_self _ _), fun q hq => hr q (List.mem_cons_of_mem _ hq)⟩

theorem snap_bound (c : ℚ) (hc : 0 < c) (x lo hi : ℚ) (hlo : lo ≤ x) (hhi : x < hi) :
    lo - c / 2 < (⌊x / c⌋ : ℚ) * c + c / 2 ∧ (⌊x / c⌋ : ℚ) * c + c / 2 < hi + c / 2 := by
  have h1 : (⌊x / c⌋ : ℚ) ≤ x / c := Int.floor_le _
  have h2 : x / c - 1 < (⌊x / c⌋ : ℚ) := Int.sub_one_lt_floor _
  have h1m : (⌊x / c⌋ : ℚ) * c ≤ x := by
    have h := mul_le_mul_of_nonneg_right h1 hc.le
    rwa [div_mul_cancel₀ _ hc.ne'] at h
  have h2m : x - c < (⌊x / c⌋ : ℚ) * c := by
    have h := mul_lt_mul_of_pos_right h2 hc
    rw [sub_mul, one_mul, div_mul_cancel₀ _ hc.ne'] at h
    linarith
  constructor <;> linarith

theorem spawnOneFood_spec (cell : ℚ) (hc : 0 < cell) (m : MonitorConfig) (rng : Rng)
    (hr : ∀ q ∈ rng, 0 ≤ q ∧ q < 1) :
    ((spawnOneFood cell m rng).1.monitorId = m.id ∧
      spawnedFoodOk cell m (spawnOneFood cell m rng).1) ∧
    ∀ q ∈ (spawnOneFood cell m rng).2, 0 ≤ q ∧ q < 1 := by
  obtain ⟨⟨hq1a, hq1b⟩, hr1⟩ := rand_bounds rng hr
  obtain ⟨⟨hq2a, hq2b⟩, hr2⟩ := rand_bounds _ hr1
  have hr3 := (rand_bounds _ hr2).2
  have hxlo : (m.col : ℚ) * MONITOR_W + 100 ≤
      (m.col : ℚ) * MONITOR_W + 100 + (rand rng).1 * (MONITOR_W - 200) := by
    have : 0 ≤ (rand rng).1 * (MONITOR_W - 200) := by
      apply mul_nonneg hq1a
      norm_num [MONITOR_W]
    linarith
  have hxhi : (m.col : ℚ) * MONITOR_W + 100 + (rand rng).1 * (MONITOR_W - 200) <
      (m.col : ℚ) * MONITOR_W + MONITOR_W - 100 := by
    have h := mul_lt_mul_of_pos_right hq1b (show (0:ℚ) < MONITOR_W - 200 by norm_num [MONITOR_W])
    rw [one_mul] at h
    norm_num [MONITOR_W] at h ⊢
    linarith
  have hylo : (m.row : ℚ) * MONITOR_H + 100 ≤
      (m.row : ℚ) * MONITOR_H + 100 + (rand (rand rng).2).1 * (MONITOR_H - 200) := by
    have : 0 ≤ (rand (rand rng).2).1 * (MONITOR_H - 200) := by
      apply mul_nonneg hq2a
      norm_num [MONITOR_H]
    linarith
  have hyhi : (m.row : ℚ) * MONITOR_H + 100 + (rand (rand rng).2).1 * (MONITOR_H - 200) <
      (m.row : ℚ) * MONITOR_H + MONITOR_H - 100 := by
    have h := mul_lt_mul_of_pos_right hq2b (show (0:ℚ) < MONITOR_H - 200 by norm_num [MONITOR_H])
    rw [one_mul] at h
    norm_num [MONITOR_H] at h ⊢
    linarith
  have hx := snap_bound cell hc _ _ _ hxlo hxhi
  have hy := snap_bound cell hc _ _ _ hylo hyhi
  dsimp only [spawnOneFood, makeId, spawnedFoodOk, snapToGrid]
  refine ⟨⟨rfl, ⟨_, _, rfl, rfl⟩, ?_, ?_, ?_, ?_⟩, hr3⟩
  · linarith [hx.1]
  · linarith [hx.2]
  · linarith [hy.1]
  · linarith [hy.2]

end SnakeGame

namespace SnakeGame

theorem spawnLoop_spec (cell : ℚ) (hc : 0 < cell) (m : MonitorConfig) :
    ∀ (n : ℕ) (rng : Rng), (∀ q ∈ rng, 0 ≤ q ∧ q < 1) →
      ((spawnLoop cell m n rng).1.length = n ∧
        ∀ f ∈ (spawnLoop cell m n rng).1,
          f.monitorId = m.id ∧ spawnedFoodOk cell m f) ∧
      ∀ q ∈ (spawnLoop cell m n rng).2, 0 ≤ q ∧ q < 1 := by
  intro n
  induction n with
  | zero =>
    intro rng hr
    refine ⟨⟨rfl, ?_⟩, hr⟩
    intro f hf
    simp [spawnLoop] at hf
  | succ k ih =>
    intro rng hr
    obtain ⟨⟨hid, hok⟩, hr1⟩ := spawnOneFood_spec cell hc m rng hr
    obtain ⟨⟨hlen, hall⟩, hr2⟩ := ih (spawnOneFood cell m rng).2 hr1
    refine ⟨⟨?_, ?_⟩, ?_⟩
    · simp [spawnLoop, hlen]
    · intro f hf
      simp only [spawnLoop, List.mem_cons] at hf
      rcases hf with rfl | hf
      · exact ⟨hid, hok⟩
      · exact hall f hf
    · intro q hq
      simp only [spawnLoop] at hq
      exact hr2 q hq

theorem spawnFoods_spec (config : GameConfig) (hc : 0 < config.gridCellSize) :
    ∀ (monitors : List MonitorConfig) (rng : Rng), (∀ q ∈ rng, 0 ≤ q ∧ q < 1) →
      ((spawnFoods config monitors rng).1.length
          = monitors.length * config.foodPerMonitor ∧
        ∀ f ∈ (spawnFoods config monitors rng).1, ∃ m ∈ monitors,
          f.monitorId = m.id ∧ spawnedFoodOk config.gridCellSize m f) ∧
      ∀ q ∈ (spawnFoods config monitors rng).2, 0 ≤ q ∧ q < 1 := by
  intro monitors
  induction monitors with
  | nil =>
    intro rng hr
    refine ⟨⟨by simp [spawnFoods], ?_⟩, hr⟩
    intro f hf
    simp [spawnFoods] at hf
  | cons m ms ih =>
    intro rng hr
    obtain ⟨⟨hlen1, hall1⟩, hr1⟩ :=
      spawnLoop_spec config.gridCellSize hc m config.foodPerMonitor rng hr
    obtain ⟨⟨hlen2, hall2⟩, hr2⟩ := ih _ hr1
    refine ⟨⟨?_, ?_⟩, ?_⟩
    · simp [spawnFoods, hlen1, hlen2]
      ring
    · intro f hf
      simp only [spawnFoods, List.mem_append] at hf
      rcases hf with hf | hf
      · obtain ⟨hid, hok⟩ := hall1 f hf
        exact ⟨m, List.mem_cons_self _ _, hid, hok⟩
      · obtain ⟨m', hm', hid, hok⟩ := hall2 f hf
        exact ⟨m', List.mem_cons_of_mem _ hm', hid, hok⟩
    · intro q hq
      simp only [spawnFoods] at hq
      exact hr2 q hq

theorem respawnFood_spec (config : GameConfig) (monitors : List MonitorConfig)
    (monitorId : String) (rng : Rng)
    (hc : 0 < config.gridCellSize) (hr : ∀ q ∈ rng, 0 ≤ q ∧ q < 1) :
    (monitors.find? (fun mm => mm.id == monitorId) = none →
      (respawnFood config monitors monitorId rng).1 = []) ∧
    ∀ m, monitors.find? (fun mm => mm.id == monitorId) = some m →
      (respawnFood config monitors monitorId rng).1.length = 1 ∧
      ∀ f ∈ (respawnFood config monitors monitorId rng).1,
        f.monitorId = monitorId ∧ spawnedFoodOk config.gridCellSize m f := by
  constructor
  · intro hnone
    simp [respawnFood, hnone]
  · intro m hm
    obtain ⟨⟨hid, hok⟩, -⟩ := spawnOneFood_spec config.gridCellSize hc m rng hr
    refine ⟨by simp [respawnFood, hm], ?_⟩
    intro f hf
    simp only [respawnFood, hm, List.mem_singleton] at hf
    subst hf
    refine ⟨rfl, ?_⟩
    obtain ⟨hal, hb1, hb2, hb3, hb4⟩ := hok
    exact ⟨hal, hb1, hb2, hb3, hb4⟩

end SnakeGame

namespace SnakeGame

/-- C3 amended: every food position the engine adds — `spawnFoods` at game
start and `respawnFood` after a food is eaten — is a grid-aligned position
inside the 100 px-padded interior of its monitor (up to half a cell of
snapping slack), tagged with that monitor's id; food is always added
unconditionally: exactly `foodPerMonitor` per monitor initially and exactly
one on each respawn whose monitor id exists (none when it does not).  The
engine performs no occupancy check, no existing-food check, no
portal-distance check and has no retry budget. -/
theorem spawn_positions_unchecked (config : GameConfig)
    (monitors : List MonitorConfig) (monitorId : String) (rng rng' : Rng)
    (hc : 0 < config.gridCellSize)
    (hr : ∀ q ∈ rng, 0 ≤ q ∧ q < 1) (hr' : ∀ q ∈ rng', 0 ≤ q ∧ q < 1) :
    ((spawnFoods config monitors rng).1.length
        = monitors.length * config.foodPerMonitor ∧
      ∀ f ∈ (spawnFoods config monitors rng).1, ∃ m ∈ monitors,
        f.monitorId = m.id ∧ spawnedFoodOk config.gridCellSize m f) ∧
    (monitors.find? (fun mm => mm.id == monitorId) = none →
      (respawnFood config monitors monitorId rng').1 = []) ∧
    ∀ m, monitors.find? (fun mm => mm.id == monitorId) = some m →
      (respawnFood config monitors monitorId rng').1.length = 1 ∧
      ∀ f ∈ (respawnFood config monitors monitorId rng').1,
        f.monitorId = monitorId ∧ spawnedFoodOk config.gridCellSize m f := by
  refine ⟨(spawnFoods_spec config hc monitors rng hr).1, ?_, ?_⟩
  · exact (respawnFood_spec config monitors monitorId rng' hc hr').1
  · exact (respawnFood_spec config monitors monitorId rng' hc hr').2

/-- Witness for the amended C3 at the base configuration with a single
monitor and a half-range random draw. -/
theorem spawn_positions_unchecked_witness :
    ((spawnFoods baseConfig [mon0] [1/2, 1/2, 0]).1.length
        = [mon0].length * baseConfig.foodPerMonitor ∧
      ∀ f ∈ (spawnFoods baseConfig [mon0] [1/2, 1/2, 0]).1, ∃ m ∈ [mon0],
        f.monitorId = m.id ∧ spawnedFoodOk baseConfig.gridCellSize m f) ∧
    ([mon0].find? (fun mm => mm.id == "0") = none →
      (respawnFood baseConfig [mon0] "0" []).1 = []) ∧
    ∀ m, [mon0].find? (fun mm => mm.id == "0") = some m →
      (respawnFood baseConfig [mon0] "0" []).1.length = 1 ∧
      ∀ f ∈ (respawnFood baseConfig [mon0] "0" []).1,
        f.monitorId = "0" ∧ spawnedFoodOk baseConfig.gridCellSize m f :=
  spawn_positions_unchecked baseConfig [mon0] "0" [1/2, 1/2, 0] []
    (by norm_num [baseConfig])
    (by
      intro q hq
      simp only [List.mem_cons, List.not_mem_nil, or_false] at hq
      rcases hq with rfl | rfl | rfl <;> norm_num)
    (by intro q hq; simp at hq)

end SnakeGame
